import Mathlib

/-!
# Titta websocket server: session protocol engine

A shallow embedding of `TittaMex/Titta_websocket/main.cpp`.

Modelling conventions.

* A finite C++ `float` is the rational number it holds (`ℚ`).  Every `float`
  operation of the source is the exact operation followed by `toFloat`, the
  rounding to the nearest binary32 value, ties to even, subnormal values
  included.  Where a result can leave the binary32 range it is said so at the
  operation.  A gaze coordinate may also be NaN or infinite, so coordinates are
  `Option ℚ` with `none` standing for a value that is not finite.
* `int` values are integers.  The conversion `static_cast<int>` of a float and
  the operator `%` are undefined behaviour outside their domain; the model
  reports these as a `Fault`, as it does an exception thrown by the JSON
  library.  A fault ends the run of the server.
* The two counters `sampleTick` and `nClients` are modelled in `ℤ`:
  `sampleTick` is reduced modulo `downSampFac` by every callback and
  `nClients` counts open sockets, so neither comes near the `int` range.
* The Tobii SDK, the `Titta` buffer and the socket are external.  What they
  answer during one handler invocation is an input (`Sdk`); what the handler
  asks of them is recorded, in order, as a list of `Effect`s.
* A JSON value is given by its content; an object is the list of its
  key/value pairs in the order in which the source lists them.  A float that
  is not finite is serialised by the JSON library as `null`.
-/

namespace Titta

/-! ## JSON values -/

/-- JSON values as handled by `nlohmann::json`. -/
inductive Json where
  | null
  | bool (b : Bool)
  | num (q : ℚ)
  | str (s : String)
  | arr (xs : List Json)
  | obj (kvs : List (String × Json))

/-- Ways in which a handler can fail to return. -/
inductive Fault where
  | divByZero
  | intOverflow
  | jsonTypeError
  | jsonOutOfRange
  | nullDeref
  | floatOverflow
  deriving DecidableEq, Repr

deriving instance DecidableEq for Except

/-! ## Binary32 arithmetic -/

/-- The position of the leading binary digit of `n`, counted with `fuel` steps. -/
def log2Fuel : Nat → Nat → Nat
  | 0, _ => 0
  | fuel + 1, n => if 2 ≤ n then log2Fuel fuel (n / 2) + 1 else 0

/-- The position of the leading binary digit of `n`: `2 ^ ilog2 n ≤ n < 2 ^ (ilog2 n + 1)`
for `n` other than `0`. -/
def ilog2 (n : Nat) : Nat := log2Fuel n n

/-- Rounding of a rational to the nearest integer, a tie going to the even one. -/
def roundTiesEven (q : ℚ) : Int :=
  if q - (Rat.floor q : ℚ) < 1 / 2 then Rat.floor q
  else if 1 / 2 < q - (Rat.floor q : ℚ) then Rat.floor q + 1
  else if Rat.floor q % 2 = 0 then Rat.floor q
  else Rat.floor q + 1

/-- The binary exponent of a rational other than `0`: the `e` with
`2 ^ e ≤ |q| < 2 ^ (e + 1)`. -/
def binade (q : ℚ) : Int :=
  if (2 : ℚ) ^ ((ilog2 q.num.natAbs : Int) - (ilog2 q.den : Int)) ≤ |q| then
    (ilog2 q.num.natAbs : Int) - (ilog2 q.den : Int)
  else (ilog2 q.num.natAbs : Int) - (ilog2 q.den : Int) - 1

/-- Rounding to binary32: the multiple of the unit in the last place that is nearest to
`q`, ties to even.  The unit is `2 ^ (e - 23)` for the binary exponent `e` of `q`, and
`2 ^ (-149)` in the subnormal range.  The upper end of the range is not cut off here. -/
def toFloat (q : ℚ) : ℚ :=
  if q = 0 then 0
  else roundTiesEven (q / (2 : ℚ) ^ (max (binade q) (-126) - 23))
    * (2 : ℚ) ^ (max (binade q) (-126) - 23)

/-- The largest finite binary32 value. -/
def FLT_MAX : ℚ := (2 ^ 24 - 1) * 2 ^ 104

/-- The `float` sum `x + .5f`.  It cannot leave the range: the sum of the largest value
and `0.5` rounds to the largest value. -/
def addHalf (x : ℚ) : ℚ := toFloat (x + 1 / 2)

/-- The `float` quotient `x / y` for `y` other than `0`. -/
def floatDiv (x y : ℚ) : ℚ := toFloat (x / y)

/-- The test `is_null()`. -/
def Json.is_null : Json → Bool
  | .null => true
  | _ => false

/-- The member `count(key)`: `0` on anything that is not an object. -/
def Json.count (j : Json) (key : String) : Nat :=
  match j with
  | .obj kvs => if (kvs.lookup key).isSome then 1 else 0
  | _ => 0

/-- The member `at(key)` on an object; it throws when the key is absent. -/
def Json.atKey (j : Json) (key : String) : Except Fault Json :=
  match j with
  | .obj kvs =>
    match kvs.lookup key with
    | some v => .ok v
    | none => .error .jsonOutOfRange
  | _ => .error .jsonTypeError

/-- The conversion `get<std::string>()`; it throws on a value that is not a string. -/
def Json.getString : Json → Except Fault String
  | .str s => .ok s
  | _ => .error .jsonTypeError

/-- The conversion `get<float>()`: the number is rounded to binary32, which is undefined
when the result leaves the range; it throws on a value that is neither a number nor a
boolean. -/
def Json.getFloat : Json → Except Fault ℚ
  | .num q => if |toFloat q| ≤ FLT_MAX then .ok (toFloat q) else .error .floatOverflow
  | .bool b => .ok (if b then 1 else 0)
  | _ => .error .jsonTypeError

/-- The conversion `get<size_t>()` used for `nSamples`. -/
def Json.getSize : Json → Except Fault Nat
  | .num q => .ok (Int.toNat (Int.emod (Int.tdiv q.num q.den) (2 ^ 64)))
  | .bool b => .ok (if b then 1 else 0)
  | _ => .error .jsonTypeError

/-- A float as it appears in a serialised JSON message. -/
def Json.ofFloat : Option ℚ → Json
  | some q => .num q
  | none => .null

/-! ## Machine arithmetic -/

def INT_MIN : Int := -2147483648

def INT_MAX : Int := 2147483647

/-- Truncation toward zero of a rational. -/
def truncate (q : ℚ) : Int := Int.tdiv q.num q.den

/-- The conversion `static_cast<int>(q)`: truncation toward zero, undefined when
the result does not fit an `int`. -/
def floatToInt (q : ℚ) : Except Fault Int :=
  if INT_MIN ≤ truncate q ∧ truncate q ≤ INT_MAX then .ok (truncate q)
  else .error .intOverflow

/-- The operator `a % b` on `int`: the remainder of the truncating division,
undefined for `b = 0` and for `INT_MIN % -1`. -/
def intMod (a b : Int) : Except Fault Int :=
  if b = 0 then .error .divByZero
  else if a = INT_MIN ∧ b = -1 then .error .intOverflow
  else .ok (Int.tmod a b)

/-! ## Actions -/

inductive Action where
  | Connect
  | SetSampleStreamFreq
  | StartSampleStream
  | StopSampleStream
  | SetBaseSampleFreq
  | StartSampleBuffer
  | ClearSampleBuffer
  | PeekSamples
  | StopSampleBuffer
  | SaveData
  | StoreMessage
  deriving DecidableEq, Repr

/-- The map from the `action` string of a message to an `Action`. -/
def actionTypeMap : List (String × Action) :=
  [ ("connect", Action.Connect),
    ("setSampleStreamFreq", Action.SetSampleStreamFreq),
    ("startSampleStream", Action.StartSampleStream),
    ("stopSampleStream", Action.StopSampleStream),
    ("SetBaseSampleFreq", Action.SetBaseSampleFreq),
    ("startSampleBuffer", Action.StartSampleBuffer),
    ("clearSampleBuffer", Action.ClearSampleBuffer),
    ("peekSamples", Action.PeekSamples),
    ("stopSampleBuffer", Action.StopSampleBuffer),
    ("saveData", Action.SaveData),
    ("storeMessage", Action.StoreMessage) ]

/-! ## Gaze samples -/

inductive TobiiResearchValidity where
  | TOBII_RESEARCH_VALIDITY_INVALID
  | TOBII_RESEARCH_VALIDITY_VALID
  deriving DecidableEq, Repr

structure TobiiResearchNormalizedPoint2D where
  x : Option ℚ
  y : Option ℚ

structure TobiiResearchGazePoint where
  position_on_display_area : TobiiResearchNormalizedPoint2D
  validity : TobiiResearchValidity

structure TobiiResearchEyeData where
  gaze_point : TobiiResearchGazePoint

structure TobiiResearchGazeData where
  left_eye : TobiiResearchEyeData
  right_eye : TobiiResearchEyeData
  system_time_stamp : Int

/-- The `float` sum of two coordinates; it is not finite when a summand is not or when
the rounded sum leaves the range. -/
def floatAdd (a b : Option ℚ) : Option ℚ :=
  match a, b with
  | some p, some q => if |toFloat (p + q)| ≤ FLT_MAX then some (toFloat (p + q)) else none
  | _, _ => none

/-- The `float` quotient of a coordinate by the constant `2`. -/
def floatHalf (a : Option ℚ) : Option ℚ :=
  match a with
  | some p => some (toFloat (p / 2))
  | none => none

/-- The function `formatSampleAsJSON`. -/
def formatSampleAsJSON (sample_ : TobiiResearchGazeData) : Json :=
  let lx := sample_.left_eye.gaze_point.position_on_display_area.x
  let ly := sample_.left_eye.gaze_point.position_on_display_area.y
  let rx := sample_.right_eye.gaze_point.position_on_display_area.x
  let ry := sample_.right_eye.gaze_point.position_on_display_area.y
  let xy : Option ℚ × Option ℚ :=
    if sample_.left_eye.gaze_point.validity = .TOBII_RESEARCH_VALIDITY_INVALID then
      (rx, ry)
    else if sample_.right_eye.gaze_point.validity = .TOBII_RESEARCH_VALIDITY_INVALID then
      (lx, ly)
    else
      (floatHalf (floatAdd lx rx), floatHalf (floatAdd ly ry))
  .obj [ ("ts", .num sample_.system_time_stamp),
         ("x", Json.ofFloat xy.1),
         ("y", Json.ofFloat xy.2) ]

/-! ## The external world -/

abbrev EyeTracker := Nat

abbrev TobiiResearchStatus := Int

abbrev TobiiResearchLicenseValidationResult := Int

def TOBII_RESEARCH_STATUS_OK : TobiiResearchStatus := 0

def TOBII_RESEARCH_LICENSE_VALIDATION_RESULT_OK : TobiiResearchLicenseValidationResult := 0

/-- What the SDK, the file system and the `Titta` buffer answer during one
invocation of a handler. -/
structure Sdk where
  find_all_eyetrackers : TobiiResearchStatus × List EyeTracker
  licenseFileExists : Bool
  apply_licenses : TobiiResearchStatus × TobiiResearchLicenseValidationResult
  address : String
  serialNumber : String
  deviceName : String
  get_all_gaze_output_frequencies : TobiiResearchStatus × List ℚ
  set_gaze_output_frequency : ℚ → TobiiResearchStatus
  subscribe_to_gaze_data : TobiiResearchStatus
  unsubscribe_from_gaze_data : TobiiResearchStatus
  start : Bool
  stop : Bool
  peekN : Option Nat → List TobiiResearchGazeData
  TobiiResearchStatusToString : TobiiResearchStatus → String
  TobiiResearchStatusToExplanation : TobiiResearchStatus → String
  TobiiResearchLicenseValidationResultToString : TobiiResearchLicenseValidationResult → String
  TobiiResearchLicenseValidationResultToExplanation :
    TobiiResearchLicenseValidationResult → String

/-- What a handler does to the outside, in the order in which it does it. -/
inductive Effect where
  | send (msg : Json)
  | broadcast (msg : Json)
  | find_all_eyetrackers
  | apply_licenses
  | get_device_info
  | get_all_gaze_output_frequencies
  | set_gaze_output_frequency (freq : ℚ)
  | subscribe_to_gaze_data
  | unsubscribe_from_gaze_data
  | tittaCreate
  | tittaStart
  | tittaStop
  | tittaClear
  | tittaPeekN (nSamples : Option Nat)
  | tittaConsumeN

/-- The variables of `main` that the handlers capture. -/
structure Session where
  TittaInstance : Option EyeTracker
  eyeTracker : Option EyeTracker
  nClients : Int
  downSampFac : Int
  sampleTick : Int
  baseSampleFreq : Option ℚ
  needSetSampleStreamFreq : Bool

/-- The state in which `main` installs the handlers; `downSampFac` is not
initialised by the source and starts at an arbitrary value. -/
def Session.init (downSampFac : Int) : Session :=
  { TittaInstance := none, eyeTracker := none, nClients := 0, downSampFac := downSampFac,
    sampleTick := 0, baseSampleFreq := none, needSetSampleStreamFreq := true }

/-- The message built by `sendTobiiErrorAsJson` for a `TobiiResearchStatus`. -/
def sendTobiiErrorAsJson (sdk : Sdk) (result_ : TobiiResearchStatus) (errMsg_ : String) : Effect :=
  .send (.obj [ ("error", .str errMsg_),
                ("TobiiErrorCode", .num result_),
                ("TobiiErrorString", .str (sdk.TobiiResearchStatusToString result_)),
                ("TobiiErrorExplanation", .str (sdk.TobiiResearchStatusToExplanation result_)) ])

/-- The message built by `sendTobiiErrorAsJson` for a license validation result. -/
def sendTobiiLicenseErrorAsJson (sdk : Sdk) (result_ : TobiiResearchLicenseValidationResult)
    (errMsg_ : String) : Effect :=
  .send (.obj [ ("error", .str errMsg_),
                ("TobiiErrorCode", .num result_),
                ("TobiiErrorString", .str (sdk.TobiiResearchLicenseValidationResultToString result_)),
                ("TobiiErrorExplanation",
                  .str (sdk.TobiiResearchLicenseValidationResultToExplanation result_)) ])

/-! ## The broadcast callback -/

/-- The lambda `tobiiBroadcastCallback`: the new value of `sampleTick` and what is
sent.  `sampleTick` is incremented, reduced modulo `downSampFac`, and the sample
is broadcast when the result is `0`. -/
def tobiiBroadcastCallback (downSampFac sampleTick : Int) (gaze_data_ : TobiiResearchGazeData) :
    Except Fault (Int × List Effect) :=
  match intMod (sampleTick + 1) downSampFac with
  | .error e => .error e
  | .ok tick =>
    if tick ≠ 0 then .ok (tick, [])
    else .ok (tick, [.broadcast (formatSampleAsJSON gaze_data_)])

/-- A run of the callback on consecutive samples with a fixed `downSampFac`: the
final `sampleTick` and, per sample, what was sent. -/
def runCallbacks (downSampFac : Int) :
    Int → List TobiiResearchGazeData → Except Fault (Int × List (List Effect))
  | sampleTick, [] => .ok (sampleTick, [])
  | sampleTick, g :: gs =>
    match tobiiBroadcastCallback downSampFac sampleTick g with
    | .error e => .error e
    | .ok (tick, out) =>
      match runCallbacks downSampFac tick gs with
      | .error e => .error e
      | .ok (last, outs) => .ok (last, out :: outs)

/-! ## Connections -/

/-- The server handler `h.onConnection`. -/
def onConnection (s : Session) : Session × List Effect :=
  ({ s with nClients := s.nClients + 1 }, [])

/-- The server handler `h.onDisconnection`. -/
def onDisconnection (s : Session) : Session × List Effect :=
  if s.nClients - 1 = 0 then
    ({ s with nClients := s.nClients - 1 },
      Effect.unsubscribe_from_gaze_data ::
        (if s.TittaInstance.isSome then [Effect.tittaStop] else []))
  else
    ({ s with nClients := s.nClients - 1 }, [])

/-! ## Stream frequency negotiation -/

/-- The loop of `Action::SetSampleStreamFreq` over `frequencies`, from position `i` on.
The state is the iterator `best` (`none` for `frequencies.cend()`, otherwise the
position it points at together with the element there) and `downSampFac`.  The three
conversions are `static_cast<int>(*x+.5f)`, `static_cast<int>(freq+.5f)` and
`static_cast<int>(*x/freq+.5f)`, each sum and the quotient being rounded to binary32. -/
def negotiateLoop (freq : ℚ) :
    Nat → List ℚ → Option (Nat × ℚ) × Int → Except Fault (Option (Nat × ℚ) × Int)
  | _, [], acc => .ok acc
  | i, x :: xs, (best, downSampFac) =>
    match floatToInt (addHalf x) with
    | .error e => .error e
    | .ok a =>
      match floatToInt (addHalf freq) with
      | .error e => .error e
      | .ok b =>
        match intMod a b with
        | .error e => .error e
        | .ok m =>
          if m = 0 then
            match floatToInt (addHalf (floatDiv x freq)) with
            | .error e => .error e
            | .ok tempDownSampFac =>
              if tempDownSampFac < downSampFac then
                negotiateLoop freq (i + 1) xs (some (i, x), tempDownSampFac)
              else
                negotiateLoop freq (i + 1) xs (best, downSampFac)
          else
            negotiateLoop freq (i + 1) xs (best, downSampFac)

/-- The negotiation of `Action::SetSampleStreamFreq`: `best` starts at
`frequencies.cend()` and `downSampFac` at `9999`. -/
def negotiate (freq : ℚ) (frequencies : List ℚ) : Except Fault (Option (Nat × ℚ) × Int) :=
  negotiateLoop freq 0 frequencies (none, 9999)

/-- The reply sent when `best == frequencies.cend()`. -/
def noMatchReply (baseSampleFreq : Option ℚ) : Json :=
  match baseSampleFreq with
  | some b =>
    .obj [ ("error", .str "invalidParam"), ("param", .str "freq"),
           ("reason", .str "requested frequency is not a divisor of the set base frequency "),
           ("baseFreq", .num b) ]
  | none =>
    .obj [ ("error", .str "invalidParam"), ("param", .str "freq"),
           ("reason",
             .str "requested frequency is not a divisor of any supported sampling frequency") ]

/-- The `float` quotient `freq/downSampFac` of the success reply: `downSampFac` is
converted to `float` and the quotient is rounded to binary32; it is not finite when
`downSampFac` is `0`. -/
def streamFreq (freq : ℚ) (downSampFac : Int) : Option ℚ :=
  if downSampFac = 0 then none else some (floatDiv freq (toFloat downSampFac))

/-- The part of `Action::SetSampleStreamFreq` that follows the collection of
`frequencies`; `pre` is what was done before. -/
def setSampleStreamFreqWith (s : Session) (sdk : Sdk) (freq : ℚ) (frequencies : List ℚ)
    (pre : List Effect) : Except Fault (Session × List Effect) :=
  match negotiate freq frequencies with
  | .error e => .error e
  | .ok (none, downSampFac) =>
    .ok ({ s with downSampFac := downSampFac }, pre ++ [.send (noMatchReply s.baseSampleFreq)])
  | .ok (some (_, best), downSampFac) =>
    let result := sdk.set_gaze_output_frequency best
    if result ≠ TOBII_RESEARCH_STATUS_OK then
      .ok ({ s with downSampFac := downSampFac },
        pre ++ [.set_gaze_output_frequency best,
                sendTobiiErrorAsJson sdk result "Problem setting sampling frequency"])
    else
      .ok ({ s with downSampFac := downSampFac, needSetSampleStreamFreq := false },
        pre ++ [.set_gaze_output_frequency best,
                .send (.obj [ ("action", .str "setSampleFreq"),
                              ("freq", Json.ofFloat (streamFreq best downSampFac)),
                              ("baseFreq", .num best),
                              ("status", .bool true) ])])

/-! ## The message handler -/

/-- The reply to a message that lacks a required parameter. -/
def jsonMissingParam (param : String) : Json :=
  .obj [ ("error", .str "jsonMissingParam"), ("param", .str param) ]

/-- The case `Action::Connect`. -/
def handleConnect (s : Session) (sdk : Sdk) : Except Fault (Session × List Effect) :=
  let found : Except Fault (Option (Session × List Effect)) :=
    match s.eyeTracker with
    | some _ => .ok (some (s, []))
    | none =>
      if sdk.find_all_eyetrackers.1 ≠ TOBII_RESEARCH_STATUS_OK then .ok none
      else
        match sdk.find_all_eyetrackers.2 with
        | [] => .error .nullDeref
        | t :: _ => .ok (some ({ s with eyeTracker := some t }, [.find_all_eyetrackers]))
  match found with
  | .error e => .error e
  | .ok none =>
    .ok (s, [.find_all_eyetrackers,
             sendTobiiErrorAsJson sdk sdk.find_all_eyetrackers.1 "Problem finding eye tracker"])
  | .ok (some (s1, pre)) =>
    let reply : List Effect :=
      [.get_device_info,
       .send (.obj [ ("action", .str "connect"), ("deviceModel", .str sdk.deviceName),
                     ("serialNumber", .str sdk.serialNumber), ("address", .str sdk.address) ])]
    if sdk.licenseFileExists then
      if sdk.apply_licenses.1 ≠ TOBII_RESEARCH_STATUS_OK
          ∨ sdk.apply_licenses.2 ≠ TOBII_RESEARCH_LICENSE_VALIDATION_RESULT_OK then
        if sdk.apply_licenses.1 ≠ TOBII_RESEARCH_STATUS_OK then
          .ok (s1, pre ++ [.apply_licenses,
            sendTobiiErrorAsJson sdk sdk.apply_licenses.1
              "License file \"TobiiLicense\" found in pwd, but could not be applied."])
        else
          .ok (s1, pre ++ [.apply_licenses,
            sendTobiiLicenseErrorAsJson sdk sdk.apply_licenses.2
              "License file \"TobiiLicense\" found in pwd, but could not be applied."])
      else
        .ok (s1, pre ++ [.apply_licenses] ++ reply)
    else
      .ok (s1, pre ++ reply)

/-- The case `Action::SetSampleStreamFreq`. -/
def handleSetSampleStreamFreq (s : Session) (sdk : Sdk) (jsonInput : Json) :
    Except Fault (Session × List Effect) :=
  if jsonInput.count "freq" = 0 then
    .ok (s, [.send (jsonMissingParam "freq")])
  else
    match jsonInput.atKey "freq" with
    | .error e => .error e
    | .ok v =>
      match v.getFloat with
      | .error e => .error e
      | .ok freq =>
        match s.baseSampleFreq with
        | some b => setSampleStreamFreqWith s sdk freq [b] []
        | none =>
          if sdk.get_all_gaze_output_frequencies.1 ≠ TOBII_RESEARCH_STATUS_OK then
            .ok (s, [.get_all_gaze_output_frequencies,
                     sendTobiiErrorAsJson sdk sdk.get_all_gaze_output_frequencies.1
                       "Problem getting sampling frequencies"])
          else
            setSampleStreamFreqWith s sdk freq sdk.get_all_gaze_output_frequencies.2
              [.get_all_gaze_output_frequencies]

/-- The reply of `Action::StartSampleStream` when the stream frequency is not set. -/
def startSampleStreamError : Json :=
  .obj [ ("error", .str "startSampleStream"),
         ("reason", .str "You have to set the stream sample rate first using action setSampleStreamFreq. NB: you also have to do this after calling setBaseSampleFreq.") ]

/-- The case `Action::StartSampleStream`. -/
def handleStartSampleStream (s : Session) (sdk : Sdk) : Except Fault (Session × List Effect) :=
  if s.needSetSampleStreamFreq then
    .ok (s, [.send startSampleStreamError])
  else if sdk.subscribe_to_gaze_data ≠ TOBII_RESEARCH_STATUS_OK then
    .ok (s, [.subscribe_to_gaze_data,
             sendTobiiErrorAsJson sdk sdk.subscribe_to_gaze_data "Problem subscribing to gaze data"])
  else
    .ok (s, [.subscribe_to_gaze_data,
             .send (.obj [ ("action", .str "startSampleStream"), ("status", .bool true) ])])

/-- The case `Action::StopSampleStream`. -/
def handleStopSampleStream (s : Session) (sdk : Sdk) : Except Fault (Session × List Effect) :=
  if sdk.unsubscribe_from_gaze_data ≠ TOBII_RESEARCH_STATUS_OK then
    .ok (s, [.unsubscribe_from_gaze_data,
             sendTobiiErrorAsJson sdk sdk.unsubscribe_from_gaze_data
               "Problem unsubscribing from gaze data"])
  else
    .ok (s, [.unsubscribe_from_gaze_data,
             .send (.obj [ ("action", .str "stopSampleStream"), ("status", .bool true) ])])

/-- The case `Action::SetBaseSampleFreq`. -/
def handleSetBaseSampleFreq (s : Session) (sdk : Sdk) (jsonInput : Json) :
    Except Fault (Session × List Effect) :=
  if jsonInput.count "freq" = 0 then
    .ok (s, [.send (jsonMissingParam "freq")])
  else
    match jsonInput.atKey "freq" with
    | .error e => .error e
    | .ok v =>
      match v.getFloat with
      | .error e => .error e
      | .ok freq =>
        let result := sdk.set_gaze_output_frequency freq
        if result ≠ TOBII_RESEARCH_STATUS_OK then
          .ok (s, [.set_gaze_output_frequency freq,
                   sendTobiiErrorAsJson sdk result "Problem setting sampling frequency"])
        else
          .ok ({ s with baseSampleFreq := some freq, needSetSampleStreamFreq := true },
            [.set_gaze_output_frequency freq, .unsubscribe_from_gaze_data,
             .send (.obj [ ("action", .str "setSampleFreq"), ("freq", .num freq),
                           ("status", .bool true) ])])

/-- The case `Action::StartSampleBuffer`. -/
def handleStartSampleBuffer (s : Session) (sdk : Sdk) : Except Fault (Session × List Effect) :=
  match s.TittaInstance with
  | some _ =>
    .ok (s, [.tittaStart,
             .send (.obj [ ("action", .str "startSampleBuffer"), ("status", .bool sdk.start) ])])
  | none =>
    match s.eyeTracker with
    | some t =>
      .ok ({ s with TittaInstance := some t },
        [.tittaCreate, .tittaStart,
         .send (.obj [ ("action", .str "startSampleBuffer"), ("status", .bool sdk.start) ])])
    | none =>
      .ok (s, [.send (.obj [ ("error", .str "startSampleBuffer"),
                 ("reason", .str "you need to do the \"connect\" action first") ])])

/-- The case `Action::ClearSampleBuffer`. -/
def handleClearSampleBuffer (s : Session) : Except Fault (Session × List Effect) :=
  .ok (s, (if s.TittaInstance.isSome then [Effect.tittaClear] else [])
    ++ [.send (.obj [ ("action", .str "clearSampleBuffer"), ("status", .bool true) ])])

/-- The case `Action::PeekSamples`. -/
def handlePeekSamples (s : Session) (sdk : Sdk) (jsonInput : Json) :
    Except Fault (Session × List Effect) :=
  match s.TittaInstance with
  | none => .ok (s, [.send (.arr [])])
  | some _ =>
    let nSamples : Except Fault (Option Nat) :=
      if jsonInput.count "nSamples" ≠ 0 then
        match jsonInput.atKey "nSamples" with
        | .error e => .error e
        | .ok v =>
          match v.getSize with
          | .error e => .error e
          | .ok n => .ok (some n)
      else .ok none
    match nSamples with
    | .error e => .error e
    | .ok n =>
      .ok (s, [.tittaPeekN n, .send (.arr ((sdk.peekN n).map formatSampleAsJSON))])

/-- The case `Action::StopSampleBuffer`. -/
def handleStopSampleBuffer (s : Session) (sdk : Sdk) : Except Fault (Session × List Effect) :=
  match s.TittaInstance with
  | some _ =>
    .ok (s, [.tittaStop,
             .send (.obj [ ("action", .str "stopSampleBuffer"), ("status", .bool sdk.stop) ])])
  | none =>
    .ok (s, [.send (.obj [ ("action", .str "stopSampleBuffer"), ("status", .bool false) ])])

/-- The case `Action::SaveData`. -/
def handleSaveData (s : Session) : Except Fault (Session × List Effect) :=
  .ok (s, if s.TittaInstance.isSome then [Effect.tittaConsumeN] else [])

/-- The case `Action::StoreMessage`. -/
def handleStoreMessage (s : Session) : Except Fault (Session × List Effect) :=
  .ok (s, [])

/-- The `switch (action)` of the server handler `h.onMessage`. -/
def dispatch (s : Session) (sdk : Sdk) (jsonInput : Json) :
    Action → Except Fault (Session × List Effect)
  | .Connect => handleConnect s sdk
  | .SetSampleStreamFreq => handleSetSampleStreamFreq s sdk jsonInput
  | .StartSampleStream => handleStartSampleStream s sdk
  | .StopSampleStream => handleStopSampleStream s sdk
  | .SetBaseSampleFreq => handleSetBaseSampleFreq s sdk jsonInput
  | .StartSampleBuffer => handleStartSampleBuffer s sdk
  | .ClearSampleBuffer => handleClearSampleBuffer s
  | .PeekSamples => handlePeekSamples s sdk jsonInput
  | .StopSampleBuffer => handleStopSampleBuffer s sdk
  | .SaveData => handleSaveData s
  | .StoreMessage => handleStoreMessage s

/-- The server handler `h.onMessage`.  The payload is given by what `json::parse`
makes of it: `none` when the parser discards it. -/
def onMessage (s : Session) (sdk : Sdk) (parsed : Option Json) :
    Except Fault (Session × List Effect) :=
  match parsed with
  | none => .ok (s, [.send (.obj [ ("error", .str "invalidJson") ])])
  | some jsonInput =>
    if jsonInput.is_null then
      .ok (s, [.send (.obj [ ("error", .str "invalidJson") ])])
    else if jsonInput.count "action" = 0 then
      .ok (s, [.send (jsonMissingParam "action")])
    else
      match jsonInput.atKey "action" with
      | .error e => .error e
      | .ok v =>
        match v.getString with
        | .error e => .error e
        | .ok actionStr =>
          match actionTypeMap.lookup actionStr with
          | none =>
            .ok (s, [.send (.obj [ ("error", .str "Unrecognized action"),
                                   ("action", .str actionStr) ])])
          | some action => dispatch s sdk jsonInput action

/-- The server processing a sequence of messages, each with what the outside
answers while it is handled: the final session and, per message, what was done. -/
def runMessages : Session → List (Sdk × Option Json) → Except Fault (Session × List (List Effect))
  | s, [] => .ok (s, [])
  | s, (sdk, parsed) :: rest =>
    match onMessage s sdk parsed with
    | .error e => .error e
    | .ok (s1, out) =>
      match runMessages s1 rest with
      | .error e => .error e
      | .ok (s2, outs) => .ok (s2, out :: outs)

/-! ## Notions used to state the properties -/

/-- Rounding to the nearest integer the way the source does it: the `float` sum
`x + .5f`, truncated. -/
def roundHalf (x : ℚ) : Int := truncate (addHalf x)

/-- A supported frequency `f` is a candidate for the request `r` when the rounded
`f` leaves remainder `0` on division by the rounded `r`. -/
def isCandidate (r f : ℚ) : Prop := Int.tmod (roundHalf f) (roundHalf r) = 0

instance (r f : ℚ) : Decidable (isCandidate r f) := by
  unfold isCandidate; infer_instance

/-- The invariant of the negotiation loop over the frequencies seen so far. -/
def NegInv (r : ℚ) (seen : List ℚ) (acc : Option (Nat × ℚ) × Int) : Prop :=
  (∀ g ∈ seen, isCandidate r g → acc.2 ≤ roundHalf (floatDiv g r)) ∧
  (∀ j f, acc.1 = some (j, f) → f ∈ seen ∧ isCandidate r f ∧ acc.2 = roundHalf (floatDiv f r))

/-! ## Clients -/

/-- A connection event of the server. -/
inductive ClientEvent where
  | connect
  | disconnect
  deriving DecidableEq, Repr

/-- The handler the server runs on a connection event. -/
def onClientEvent (s : Session) : ClientEvent → Session × List Effect
  | .connect => onConnection s
  | .disconnect => onDisconnection s

/-- The server processing a sequence of connection events: per event, the event,
the session after it and what the handler did. -/
def traceEvents : Session → List ClientEvent → List (ClientEvent × Session × List Effect)
  | _, [] => []
  | s, ev :: evs => (ev, onClientEvent s ev) :: traceEvents (onClientEvent s ev).1 evs

/-- What the disconnection handler does when the last client has left. -/
def teardown (s : Session) : List Effect :=
  Effect.unsubscribe_from_gaze_data :: (if s.TittaInstance.isSome then [Effect.tittaStop] else [])

/-! ## Reading a run of messages -/

/-- The action a message asks for, when it carries a recognised one. -/
def actionOf (parsed : Option Json) : Option Action :=
  match parsed with
  | some (.obj kvs) =>
    match kvs.lookup "action" with
    | some (.str a) => actionTypeMap.lookup a
    | _ => none
  | _ => none

/-- A reply reports success: it is an object whose `status` is `true`. -/
def isSuccessReply : Effect → Bool
  | .send (.obj kvs) =>
    match kvs.lookup "status" with
    | some (.bool true) => true
    | _ => false
  | _ => false

/-- The handler broadcast a sample to the connected clients. -/
def isBroadcast : Effect → Bool
  | .broadcast _ => true
  | _ => false

/-- The handler called the SDK to subscribe to gaze data. -/
def isSubscribe : Effect → Bool
  | .subscribe_to_gaze_data => true
  | _ => false

/-- Over the messages handled so far, with what each one did: whether some
`setSampleStreamFreq` succeeded and no `SetBaseSampleFreq` succeeded since the
last one that did. -/
def streamConfigured (steps : List (Option Json × List Effect)) : Bool :=
  match steps.reverse.find?
      (fun st => (actionOf st.1 = some Action.SetSampleStreamFreq
          ∨ actionOf st.1 = some Action.SetBaseSampleFreq) ∧ st.2.any isSuccessReply) with
  | some st => actionOf st.1 = some Action.SetSampleStreamFreq
  | none => false

/-! ## Concrete inputs -/

/-- An SDK that answers every call with success and reports the given output
frequencies. -/
def exampleSdk (frequencies : List ℚ) : Sdk :=
  { find_all_eyetrackers := (TOBII_RESEARCH_STATUS_OK, [1]),
    licenseFileExists := false,
    apply_licenses := (TOBII_RESEARCH_STATUS_OK, TOBII_RESEARCH_LICENSE_VALIDATION_RESULT_OK),
    address := "tet-tcp://169.254.10.20",
    serialNumber := "TPSP1-010202544112",
    deviceName := "Tobii Pro Spectrum",
    get_all_gaze_output_frequencies := (TOBII_RESEARCH_STATUS_OK, frequencies),
    set_gaze_output_frequency := fun _ => TOBII_RESEARCH_STATUS_OK,
    subscribe_to_gaze_data := TOBII_RESEARCH_STATUS_OK,
    unsubscribe_from_gaze_data := TOBII_RESEARCH_STATUS_OK,
    start := true,
    stop := true,
    peekN := fun _ => [],
    TobiiResearchStatusToString := fun _ => "",
    TobiiResearchStatusToExplanation := fun _ => "",
    TobiiResearchLicenseValidationResultToString := fun _ => "",
    TobiiResearchLicenseValidationResultToExplanation := fun _ => "" }

/-- A gaze sample from the validity and the display-area position of each eye. -/
def exampleSample (ts : Int) (lv : TobiiResearchValidity) (lx ly : Option ℚ)
    (rv : TobiiResearchValidity) (rx ry : Option ℚ) : TobiiResearchGazeData :=
  { left_eye := { gaze_point := { position_on_display_area := { x := lx, y := ly },
                                  validity := lv } },
    right_eye := { gaze_point := { position_on_display_area := { x := rx, y := ry },
                                   validity := rv } },
    system_time_stamp := ts }

/-- A message that carries only an action. -/
def actionMsg (action : String) : Option Json :=
  some (.obj [ ("action", .str action) ])

/-- A message that carries an action and a `freq` parameter. -/
def freqMsg (action : String) (freq : ℚ) : Option Json :=
  some (.obj [ ("action", .str action), ("freq", .num freq) ])

/-! ## Reading what a handler did -/

/-- The handler sent a message to the client that wrote to it. -/
def isSend : Effect → Bool
  | .send _ => true
  | _ => false

/-- The handler asked the SDK for the output frequencies of the device. -/
def isFrequencyQuery : Effect → Bool
  | .get_all_gaze_output_frequencies => true
  | _ => false

/-- The handler asked the SDK to unsubscribe from gaze data. -/
def isUnsubscribe : Effect → Bool
  | .unsubscribe_from_gaze_data => true
  | _ => false

/-- A JSON value is an object that has the key. -/
def Json.hasKey (j : Json) (key : String) : Bool :=
  decide (j.count key ≠ 0)

/-- A JSON value is an array. -/
def Json.isArray : Json → Bool
  | .arr _ => true
  | _ => false

/-- One pass of the body of the negotiation loop on the frequency `x` at position `i`,
as a relation between the state before and the state after. -/
def NegStep (r : ℚ) (i : Nat) (x : ℚ) (acc acc1 : Option (Nat × ℚ) × Int) : Prop :=
  (¬ isCandidate r x ∧ acc1 = acc) ∨
  (isCandidate r x ∧ roundHalf (floatDiv x r) < acc.2 ∧ acc1 = (some (i, x), roundHalf (floatDiv x r))) ∨
  (isCandidate r x ∧ ¬ roundHalf (floatDiv x r) < acc.2 ∧ acc1 = acc)

/-- The invariant of the negotiation loop on the position of `best`: it points into the
frequencies seen so far, and every candidate before it has a larger factor. -/
def NegInvFirst (r : ℚ) (seen : List ℚ) (acc : Option (Nat × ℚ) × Int) : Prop :=
  ∀ j f, acc.1 = some (j, f) →
    seen[j]? = some f ∧
    ∀ k g, k < j → seen[k]? = some g → isCandidate r g → acc.2 < roundHalf (floatDiv g r)

/-- The body of the negotiation loop runs on the frequency `x` without undefined
behaviour: the conversions to `int` fit and the remainder has a divisor other than `0`. -/
def candidacyDefined (r x : ℚ) : Prop :=
  ∃ a c m, floatToInt (addHalf x) = .ok a ∧ floatToInt (addHalf r) = .ok c ∧
    intMod a c = .ok m ∧ (m = 0 → ∃ t, floatToInt (addHalf (floatDiv x r)) = .ok t)

/-- An SDK that answers like `exampleSdk` but refuses to set an output frequency. -/
def refusingSdk (frequencies : List ℚ) : Sdk :=
  { exampleSdk frequencies with set_gaze_output_frequency := fun _ => 5 }

/-- An SDK that answers like `exampleSdk`, with a buffer that holds the given samples:
`peekN` answers with the first `n` of them, and with all of them without `n`. -/
def peekingSdk (samples : List TobiiResearchGazeData) : Sdk :=
  { exampleSdk [60] with
    peekN := fun n =>
      match n with
      | some k => samples.take k
      | none => samples }

/-! ## Properties of the negotiation -/

/-- A conversion to `int` that returns yields the truncation. -/
theorem floatToInt_ok {q : ℚ} {a : Int} (h : floatToInt q = .ok a) : a = truncate q := by
  unfold floatToInt at h
  split at h
  · injection h with h; exact h.symm
  · cases h

/-- A remainder that returns is the truncating remainder, by a divisor other than `0`. -/
theorem intMod_ok {a b m : Int} (h : intMod a b = .ok m) : m = Int.tmod a b ∧ b ≠ 0 := by
  unfold intMod at h
  split at h
  · cases h
  · split at h
    · cases h
    · injection h with h; exact ⟨h.symm, by assumption⟩

/-- The negotiation loop carries `NegInv` from the frequencies seen to all of them. -/
theorem negotiateLoop_inv (r : ℚ) :
    ∀ (xs : List ℚ) (i : Nat) (acc res : Option (Nat × ℚ) × Int) (seen : List ℚ),
      negotiateLoop r i xs acc = .ok res → NegInv r seen acc → NegInv r (seen ++ xs) res := by
  intro xs
  induction xs with
  | nil =>
    intro i acc res seen h hinv
    simp only [negotiateLoop] at h
    injection h with h
    subst h
    simpa using hinv
  | cons x xs ih =>
    intro i acc res seen h hinv
    obtain ⟨best, d⟩ := acc
    have hseen : seen ++ x :: xs = (seen ++ [x]) ++ xs := by simp
    rw [hseen]
    simp only [negotiateLoop] at h
    split at h
    · cases h
    · rename_i a ha
      split at h
      · cases h
      · rename_i b hb
        split at h
        · cases h
        · rename_i m hm
          have ha2 := floatToInt_ok ha
          have hb2 := floatToInt_ok hb
          have hm2 := (intMod_ok hm).1
          split at h
          · rename_i hm0
            have hcand : isCandidate r x := by
              unfold isCandidate roundHalf
              rw [← ha2, ← hb2, ← hm2]; exact hm0
            split at h
            · cases h
            · rename_i t ht
              have ht2 := floatToInt_ok ht
              split at h
              · rename_i hlt
                refine ih (i + 1) _ res _ h ⟨?_, ?_⟩
                · intro g hg hc
                  rcases List.mem_append.1 hg with hg | hg
                  · exact le_trans (le_of_lt hlt) (hinv.1 g hg hc)
                  · simp at hg; subst hg; simp [roundHalf, ht2]
                · intro j f hjf
                  simp at hjf
                  obtain ⟨_, rfl⟩ := hjf
                  exact ⟨by simp, hcand, by simp [roundHalf, ht2]⟩
              · rename_i hnlt
                refine ih (i + 1) _ res _ h ⟨?_, ?_⟩
                · intro g hg hc
                  rcases List.mem_append.1 hg with hg | hg
                  · exact hinv.1 g hg hc
                  · simp at hg; subst hg
                    simp only [roundHalf, ← ht2]
                    exact not_lt.1 hnlt
                · intro j f hjf
                  obtain ⟨h1, h2, h3⟩ := hinv.2 j f hjf
                  exact ⟨List.mem_append_left _ h1, h2, h3⟩
          · rename_i hm0
            have hncand : ¬ isCandidate r x := by
              unfold isCandidate roundHalf
              rw [← ha2, ← hb2, ← hm2]; exact hm0
            refine ih (i + 1) _ res _ h ⟨?_, ?_⟩
            · intro g hg hc
              rcases List.mem_append.1 hg with hg | hg
              · exact hinv.1 g hg hc
              · simp at hg; subst hg; exact absurd hc hncand
            · intro j f hjf
              obtain ⟨h1, h2, h3⟩ := hinv.2 j f hjf
              exact ⟨List.mem_append_left _ h1, h2, h3⟩

/-- C1: when the negotiation succeeds with base frequency `f` and factor `d`, then
`f` is a supported frequency, the rounded `f` is a multiple of the rounded request,
`d` is the rounded quotient `f / r`, and no candidate has a smaller rounded quotient.
Rounding is the source's: the `float` sum `x + .5f`, truncated; the quotient is the
`float` quotient. -/
theorem negotiate_success_sound (r : ℚ) (S : List ℚ) (i : Nat) (f : ℚ) (d : Int)
    (h : negotiate r S = .ok (some (i, f), d)) :
    f ∈ S ∧ Int.tmod (roundHalf f) (roundHalf r) = 0 ∧ d = roundHalf (floatDiv f r) ∧
      ∀ g ∈ S, Int.tmod (roundHalf g) (roundHalf r) = 0 → d ≤ roundHalf (floatDiv g r) := by
  have hinv := negotiateLoop_inv r S 0 (none, 9999) (some (i, f), d) [] h
    ⟨by simp, by simp⟩
  simp only [List.nil_append] at hinv
  obtain ⟨h1, h2, h3⟩ := hinv.2 i f rfl
  exact ⟨h1, h2, h3, fun g hg hc => hinv.1 g hg hc⟩

/-- C1, on the supported frequencies 60, 120, 200 and the request 30: the
negotiation succeeds with base frequency 60 and factor 2. -/
theorem negotiate_success_sound_witness :
    negotiate 30 [60, 120, 200] = .ok (some (0, 60), 2) ∧
    ((60 : ℚ) ∈ [(60 : ℚ), 120, 200] ∧ Int.tmod (roundHalf 60) (roundHalf 30) = 0 ∧
      (2 : Int) = roundHalf (floatDiv 60 30) ∧
      ∀ g ∈ [(60 : ℚ), 120, 200], Int.tmod (roundHalf g) (roundHalf 30) = 0 →
        (2 : Int) ≤ roundHalf (floatDiv g 30)) :=
  ⟨by decide!, negotiate_success_sound 30 [60, 120, 200] 0 60 2 (by decide!)⟩

/-- C2: with the request 1 and the single supported frequency 10000 the frequency is a
candidate, yet the negotiation ends with `best` at `frequencies.cend()` and the handler
sends the NoMatch reply: the factor 10000 is not below the initial `downSampFac` of
9999. -/
theorem setSampleStreamFreq_noMatch_with_candidate :
    isCandidate 1 10000 ∧ negotiate 1 [10000] = .ok (none, 9999) ∧
    onMessage (Session.init 0) (exampleSdk [10000]) (freqMsg "setSampleStreamFreq" 1)
      = .ok (Session.init 9999,
          [.get_all_gaze_output_frequencies, .send (noMatchReply none)]) := by
  have h : negotiate 1 [10000] = .ok (none, 9999) := by decide!
  have hg : (Json.num 1).getFloat = .ok 1 := by decide!
  refine ⟨by decide!, h, ?_⟩
  simp [onMessage, freqMsg, Json.is_null, Json.count, Json.atKey, Json.getString, List.lookup,
    actionTypeMap, dispatch, handleSetSampleStreamFreq, hg, Session.init, exampleSdk,
    TOBII_RESEARCH_STATUS_OK, setSampleStreamFreqWith, h]

/-- C9: with the request -60.5 and the single supported frequency 60 the negotiation
succeeds with the downsample factor 0; the handler stores it and replies with success,
and the broadcast callback then divides by it. -/
theorem setSampleStreamFreq_stores_zero_factor :
    negotiate (-121 / 2) [60] = .ok (some (0, 60), 0) ∧
    onMessage (Session.init 5) (exampleSdk [60]) (freqMsg "setSampleStreamFreq" (-121 / 2))
      = .ok ({ Session.init 0 with needSetSampleStreamFreq := false },
          [.get_all_gaze_output_frequencies, .set_gaze_output_frequency 60,
           .send (.obj [ ("action", .str "setSampleFreq"), ("freq", .null),
                         ("baseFreq", .num 60), ("status", .bool true) ])]) ∧
    tobiiBroadcastCallback 0 0
        (exampleSample 1 .TOBII_RESEARCH_VALIDITY_VALID (some 0) (some 0)
          .TOBII_RESEARCH_VALIDITY_VALID (some 0) (some 0))
      = .error .divByZero := by
  have h : negotiate (-121 / 2) [60] = .ok (some (0, 60), 0) := by decide!
  have hg : (Json.num (-121 / 2)).getFloat = .ok (-121 / 2) := by decide!
  refine ⟨h, ?_, rfl⟩
  simp [onMessage, freqMsg, Json.is_null, Json.count, Json.atKey, Json.getString, List.lookup,
    actionTypeMap, dispatch, handleSetSampleStreamFreq, hg, Session.init, exampleSdk,
    TOBII_RESEARCH_STATUS_OK, setSampleStreamFreqWith, h, streamFreq, Json.ofFloat]

/-- C10: a `setSampleStreamFreq` message with `freq` 0, handled while the device
reports the output frequency 60, does not return: the candidacy test divides by the
rounded request, which is 0. -/
theorem setSampleStreamFreq_zero_faults :
    roundHalf 0 = 0 ∧
    onMessage (Session.init 0) (exampleSdk [60]) (freqMsg "setSampleStreamFreq" 0)
      = .error .divByZero := by
  have h : negotiate 0 [60] = .error .divByZero := by decide!
  have hg : (Json.num 0).getFloat = .ok 0 := by decide!
  refine ⟨by decide!, ?_⟩
  simp [onMessage, freqMsg, Json.is_null, Json.count, Json.atKey, Json.getString, List.lookup,
    actionTypeMap, dispatch, handleSetSampleStreamFreq, hg, Session.init, exampleSdk,
    TOBII_RESEARCH_STATUS_OK, setSampleStreamFreqWith, h]

/-! ## Sample formatting -/

/-- C5: the formatted sample carries the system time stamp; with only the right eye
valid it carries the right eye position, with only the left eye valid the left eye
position, and with both valid the mean of the two positions as the source computes it:
the `float` sum of the two coordinates divided by 2, which for finite coordinates
whose sum stays in the range is the exact sum rounded to binary32, halved and rounded
again. -/
theorem formatSampleAsJSON_policy (g : TobiiResearchGazeData) :
    (g.left_eye.gaze_point.validity = .TOBII_RESEARCH_VALIDITY_INVALID →
      g.right_eye.gaze_point.validity = .TOBII_RESEARCH_VALIDITY_VALID →
      formatSampleAsJSON g = .obj [ ("ts", .num g.system_time_stamp),
        ("x", Json.ofFloat g.right_eye.gaze_point.position_on_display_area.x),
        ("y", Json.ofFloat g.right_eye.gaze_point.position_on_display_area.y) ]) ∧
    (g.left_eye.gaze_point.validity = .TOBII_RESEARCH_VALIDITY_VALID →
      g.right_eye.gaze_point.validity = .TOBII_RESEARCH_VALIDITY_INVALID →
      formatSampleAsJSON g = .obj [ ("ts", .num g.system_time_stamp),
        ("x", Json.ofFloat g.left_eye.gaze_point.position_on_display_area.x),
        ("y", Json.ofFloat g.left_eye.gaze_point.position_on_display_area.y) ]) ∧
    (g.left_eye.gaze_point.validity = .TOBII_RESEARCH_VALIDITY_VALID →
      g.right_eye.gaze_point.validity = .TOBII_RESEARCH_VALIDITY_VALID →
      formatSampleAsJSON g = .obj [ ("ts", .num g.system_time_stamp),
        ("x", Json.ofFloat (floatHalf (floatAdd
          g.left_eye.gaze_point.position_on_display_area.x
          g.right_eye.gaze_point.position_on_display_area.x))),
        ("y", Json.ofFloat (floatHalf (floatAdd
          g.left_eye.gaze_point.position_on_display_area.y
          g.right_eye.gaze_point.position_on_display_area.y))) ]) ∧
    (∀ l r : ℚ, |toFloat (l + r)| ≤ FLT_MAX →
      Json.ofFloat (floatHalf (floatAdd (some l) (some r)))
        = .num (toFloat (toFloat (l + r) / 2))) := by
  refine ⟨?_, ?_, ?_, ?_⟩
  · intro hl _
    simp [formatSampleAsJSON, hl]
  · intro hl hr
    simp [formatSampleAsJSON, hl, hr]
  · intro hl hr
    simp [formatSampleAsJSON, hl, hr]
  · intro l r hfin
    simp only [floatAdd, if_pos hfin, floatHalf, Json.ofFloat]

/-- C5, on the two samples of the specification, with each coordinate the binary32 value
nearest to the decimal: left eye invalid and right eye at (0.4, 0.6) gives (0.4, 0.6);
both eyes valid at (0.2, 0.2) and (0.4, 0.4) give (0.3, 0.3), which is
5033165/16777216. -/
theorem formatSampleAsJSON_policy_witness :
    formatSampleAsJSON
        (exampleSample 7 .TOBII_RESEARCH_VALIDITY_INVALID none none
          .TOBII_RESEARCH_VALIDITY_VALID (some (toFloat (4 / 10))) (some (toFloat (6 / 10))))
      = .obj [ ("ts", .num 7), ("x", .num (toFloat (4 / 10))),
               ("y", .num (toFloat (6 / 10))) ] ∧
    formatSampleAsJSON
        (exampleSample 8 .TOBII_RESEARCH_VALIDITY_VALID
          (some (toFloat (2 / 10))) (some (toFloat (2 / 10)))
          .TOBII_RESEARCH_VALIDITY_VALID
          (some (toFloat (4 / 10))) (some (toFloat (4 / 10))))
      = .obj [ ("ts", .num 8),
          ("x", Json.ofFloat (floatHalf (floatAdd (some (toFloat (2 / 10)))
            (some (toFloat (4 / 10)))))),
          ("y", Json.ofFloat (floatHalf (floatAdd (some (toFloat (2 / 10)))
            (some (toFloat (4 / 10)))))) ] ∧
    Json.ofFloat (floatHalf (floatAdd (some (toFloat (2 / 10))) (some (toFloat (4 / 10)))))
      = .num (toFloat (toFloat (toFloat (2 / 10) + toFloat (4 / 10)) / 2)) ∧
    toFloat (toFloat (toFloat (2 / 10) + toFloat (4 / 10)) / 2) = toFloat (3 / 10) ∧
    toFloat (3 / 10) = 5033165 / 16777216 :=
  ⟨(formatSampleAsJSON_policy
      (exampleSample 7 .TOBII_RESEARCH_VALIDITY_INVALID none none
        .TOBII_RESEARCH_VALIDITY_VALID (some (toFloat (4 / 10))) (some (toFloat (6 / 10))))).1
      rfl rfl,
   (formatSampleAsJSON_policy
      (exampleSample 8 .TOBII_RESEARCH_VALIDITY_VALID
        (some (toFloat (2 / 10))) (some (toFloat (2 / 10)))
        .TOBII_RESEARCH_VALIDITY_VALID
        (some (toFloat (4 / 10))) (some (toFloat (4 / 10))))).2.2.1 rfl rfl,
   (formatSampleAsJSON_policy
      (exampleSample 8 .TOBII_RESEARCH_VALIDITY_VALID
        (some (toFloat (2 / 10))) (some (toFloat (2 / 10)))
        .TOBII_RESEARCH_VALIDITY_VALID
        (some (toFloat (4 / 10))) (some (toFloat (4 / 10))))).2.2.2
      (toFloat (2 / 10)) (toFloat (4 / 10)) (by decide!),
   by decide!, by decide!⟩

/-! ## The downsampling counter -/

/-- One callback with a positive factor and a non-negative tick. -/
theorem tobiiBroadcastCallback_nat (N t : Nat) (hN : 1 ≤ N) (g : TobiiResearchGazeData) :
    tobiiBroadcastCallback N t g
      = .ok ((((t + 1) % N : Nat) : Int),
          if (t + 1) % N = 0 then [Effect.broadcast (formatSampleAsJSON g)] else []) := by
  have h1 : intMod ((t : Int) + 1) N = .ok (((t + 1) % N : Nat) : Int) := by
    unfold intMod
    have hN0 : (N : Int) ≠ 0 := by omega
    have hmin : ¬ ((t : Int) + 1 = INT_MIN ∧ (N : Int) = -1) := by
      intro h; omega
    rw [if_neg hN0, if_neg hmin]
    rfl
  unfold tobiiBroadcastCallback
  rw [h1]
  by_cases h0 : (t + 1) % N = 0
  · have h2 : ¬ ((((t + 1) % N : Nat) : Int)) ≠ 0 := by rw [h0]; simp
    simp only [if_pos h0, if_neg h2]
  · have h2 : ((((t + 1) % N : Nat) : Int)) ≠ 0 := by exact_mod_cast h0
    simp only [if_neg h0, if_pos h2]

/-- A run of callbacks with a positive factor returns, and what each invocation sends
is decided by the tick it reaches. -/
theorem runCallbacks_nat (N : Nat) (hN : 1 ≤ N) :
    ∀ (gs : List TobiiResearchGazeData) (t0 : Nat),
      ∃ (last : Int) (outs : List (List Effect)),
        runCallbacks N t0 gs = .ok (last, outs) ∧ outs.length = gs.length ∧
        ∀ (k : Nat) (hk : k < gs.length),
          outs[k]? = some (if (t0 + (k + 1)) % N = 0
            then [Effect.broadcast (formatSampleAsJSON gs[k])] else []) := by
  intro gs
  induction gs with
  | nil =>
    intro t0
    exact ⟨t0, [], rfl, rfl, fun k hk => absurd hk (by simp)⟩
  | cons g gs ih =>
    intro t0
    obtain ⟨last, outs, hrun, hlen, hidx⟩ := ih ((t0 + 1) % N)
    refine ⟨last, (if (t0 + 1) % N = 0 then [Effect.broadcast (formatSampleAsJSON g)] else [])
      :: outs, ?_, ?_, ?_⟩
    · simp only [runCallbacks, tobiiBroadcastCallback_nat N t0 hN g, hrun]
    · simp [hlen]
    · intro k hk
      cases k with
      | zero => simp
      | succ k =>
        have hk2 : k < gs.length := by simpa using hk
        have := hidx k hk2
        simp only [List.getElem?_cons_succ, List.getElem_cons_succ]
        rw [this]
        have hmod : ((t0 + 1) % N + (k + 1)) % N = (t0 + (k + 1 + 1)) % N := by
          rw [Nat.mod_add_mod]; congr 1; omega
        rw [hmod]

/-- Among the residues below `N`, exactly `(N - r) mod N` brings `r` to a multiple of `N`. -/
theorem mod_window (N r j : Nat) (hr : r < N) (hj : j < N) :
    (r + j) % N = 0 ↔ j = (N - r) % N := by
  constructor
  · intro h
    obtain ⟨t, ht⟩ := Nat.dvd_of_mod_eq_zero h
    rcases t with _ | _ | t
    · have hr0 : r = 0 := by omega
      have hj0 : j = 0 := by omega
      subst hr0; subst hj0
      simp
    · have hr0 : r ≠ 0 := by omega
      rw [Nat.mod_eq_of_lt (by omega)]
      omega
    · exfalso
      have : N * 2 ≤ N * (t + 1 + 1) := Nat.mul_le_mul_left N (by omega)
      omega
  · intro h
    by_cases hr0 : r = 0
    · subst hr0
      simp at h
      subst h
      simp
    · rw [Nat.mod_eq_of_lt (by omega)] at h
      have : r + j = N := by omega
      rw [this]
      exact Nat.mod_self N

/-- Any `N` consecutive numbers hold exactly one `k` with `c + k` a multiple of `N`. -/
theorem count_multiples_window (N c : Nat) (hN : 1 ≤ N) (m : Nat) :
    (List.range' m N).countP (fun k => decide ((c + k) % N = 0)) = 1 := by
  rw [List.countP_eq_length_filter]
  have hnd : ((List.range' m N).filter (fun k => decide ((c + k) % N = 0))).Nodup :=
    (List.nodup_range' m N).filter _
  rw [← List.toFinset_card_of_nodup hnd, Finset.card_eq_one]
  have hr : (c + m) % N < N := Nat.mod_lt _ (by omega)
  refine ⟨m + (N - (c + m) % N) % N, ?_⟩
  ext k
  simp only [List.mem_toFinset, List.mem_filter, List.mem_range'_1, decide_eq_true_eq,
    Finset.mem_singleton]
  have key : ∀ j, j < N → ((c + (m + j)) % N = 0 ↔ j = (N - (c + m) % N) % N) := by
    intro j hj
    rw [← mod_window N ((c + m) % N) j hr hj, Nat.mod_add_mod, Nat.add_assoc]
  constructor
  · rintro ⟨⟨h1, h2⟩, h3⟩
    have hk : k = m + (k - m) := by omega
    rw [hk] at h3
    have := (key (k - m) (by omega)).1 h3
    omega
  · intro hk
    have hj : (N - (c + m) % N) % N < N := Nat.mod_lt _ (by omega)
    subst hk
    exact ⟨⟨by omega, by omega⟩, (key _ hj).2 rfl⟩


/-- C3: with a downsample factor `N` of at least 1 and a non-negative tick `t0`, a run
of callbacks returns; its invocation number `k`, counted from 1, broadcasts its sample
when `(t0 + k) mod N` is `0` and sends nothing otherwise; and among any `N` consecutive
invocations exactly one broadcasts and `N - 1` send nothing. -/
theorem broadcast_one_in_N (N t0 : Nat) (hN : 1 ≤ N) (gs : List TobiiResearchGazeData) :
    ∃ (last : Int) (outs : List (List Effect)),
      runCallbacks N t0 gs = .ok (last, outs) ∧ outs.length = gs.length ∧
      (∀ (k : Nat) (hk : k < gs.length),
        outs[k]? = some (if (t0 + (k + 1)) % N = 0
          then [Effect.broadcast (formatSampleAsJSON gs[k])] else [])) ∧
      (∀ m, m + N ≤ gs.length →
        (List.range' m N).countP (fun k => (outs.getD k []).any isBroadcast) = 1 ∧
        (List.range' m N).countP (fun k => !(outs.getD k []).any isBroadcast) = N - 1) := by
  obtain ⟨last, outs, hrun, hlen, hidx⟩ := runCallbacks_nat N hN gs t0
  refine ⟨last, outs, hrun, hlen, hidx, ?_⟩
  intro m hm
  have hfw : (List.range' m N).countP (fun k => (outs.getD k []).any isBroadcast) = 1 := by
    refine Eq.trans (List.countP_congr ?_) (count_multiples_window N (t0 + 1) hN m)
    intro k hk
    rw [List.mem_range'_1] at hk
    have hk2 : k < gs.length := by omega
    have hmod : (t0 + 1 + k) % N = (t0 + (k + 1)) % N := by congr 1; omega
    rw [List.getD_eq_getElem?_getD, hidx k hk2, hmod]
    by_cases h0 : (t0 + (k + 1)) % N = 0
    · simp [h0, isBroadcast]
    · simp [h0]
  refine ⟨hfw, ?_⟩
  have hsum := List.length_eq_countP_add_countP
    (fun k => (outs.getD k []).any isBroadcast) (List.range' m N)
  rw [hfw, List.length_range'] at hsum
  have hnot : (List.range' m N).countP (fun k => !(outs.getD k []).any isBroadcast)
      = (List.range' m N).countP
          (fun a => decide ¬ (outs.getD a []).any isBroadcast = true) := by
    apply List.countP_congr
    intro k _
    simp
  rw [hnot]
  omega

/-! ## The client count -/

/-- The client count along a sequence of events that never has more disconnections than
connections plus the `n` clients present at the start. -/
theorem traceEvents_inv :
    ∀ (evs : List ClientEvent) (s : Session) (n : Nat), s.nClients = n →
      (∀ k, (evs.take k).count .disconnect ≤ (evs.take k).count .connect + n) →
      (∀ st ∈ traceEvents s evs, 0 ≤ st.2.1.nClients ∧
        (st.1 = .connect → 1 ≤ st.2.1.nClients) ∧
        st.2.2 = (if st.1 = .disconnect ∧ st.2.1.nClients = 0 then teardown s else [])) ∧
      (∀ st, (traceEvents s evs).getLast? = some st →
        st.2.1.nClients = (n : Int) + evs.count .connect - evs.count .disconnect) := by
  intro evs
  induction evs with
  | nil =>
    intro s n _ _
    simp [traceEvents]
  | cons ev evs ih =>
    intro s n hs hwf
    cases ev with
    | connect =>
      have hwf2 : ∀ k, (evs.take k).count .disconnect ≤ (evs.take k).count .connect + (n + 1) := by
        intro k
        have := hwf (k + 1)
        simp at this
        omega
      have hs2 : (onClientEvent s .connect).1.nClients = ((n + 1 : Nat) : Int) := by
        simp [onClientEvent, onConnection, hs]
      obtain ⟨ih1, ih2⟩ := ih (onClientEvent s .connect).1 (n + 1) hs2 hwf2
      constructor
      · intro st hst
        simp only [traceEvents, List.mem_cons] at hst
        rcases hst with rfl | hst
        · simp [onClientEvent, onConnection, hs]
          omega
        · exact ih1 st hst
      · intro st hst
        cases evs with
        | nil =>
          simp [traceEvents] at hst
          subst hst
          simp [onClientEvent, onConnection, hs]
        | cons e es =>
          have : (traceEvents s (ClientEvent.connect :: e :: es)).getLast?
              = (traceEvents (onClientEvent s .connect).1 (e :: es)).getLast? := by
            simp [traceEvents, List.getLast?_cons_cons]
          rw [this] at hst
          have := ih2 st hst
          rw [this]
          simp
          omega
    | disconnect =>
      have hn : 1 ≤ n := by
        have := hwf 1
        simp at this
        omega
      have hwf2 : ∀ k, (evs.take k).count .disconnect ≤ (evs.take k).count .connect + (n - 1) := by
        intro k
        have := hwf (k + 1)
        simp at this
        omega
      have hs2 : (onClientEvent s .disconnect).1.nClients = ((n - 1 : Nat) : Int) := by
        simp only [onClientEvent, onDisconnection, hs]
        split <;> simp <;> omega
      have hT : teardown (onClientEvent s .disconnect).1 = teardown s := by
        simp only [onClientEvent, onDisconnection, teardown]
        split <;> rfl
      obtain ⟨ih1, ih2⟩ := ih (onClientEvent s .disconnect).1 (n - 1) hs2 hwf2
      rw [hT] at ih1
      constructor
      · intro st hst
        simp only [traceEvents, List.mem_cons] at hst
        rcases hst with rfl | hst
        · refine ⟨by rw [hs2]; omega, by simp, ?_⟩
          simp only [onClientEvent, onDisconnection, teardown]
          split <;> simp_all
        · exact ih1 st hst
      · intro st hst
        cases evs with
        | nil =>
          simp [traceEvents] at hst
          subst hst
          rw [hs2]
          simp
          omega
        | cons e es =>
          have : (traceEvents s (ClientEvent.disconnect :: e :: es)).getLast?
              = (traceEvents (onClientEvent s .disconnect).1 (e :: es)).getLast? := by
            simp [traceEvents, List.getLast?_cons_cons]
          rw [this] at hst
          have := ih2 st hst
          rw [this]
          simp
          omega


/-- A connection event changes the client count and nothing else. -/
theorem onClientEvent_session (s : Session) (ev : ClientEvent) :
    (onClientEvent s ev).1
      = { s with nClients := s.nClients + (if ev = .connect then 1 else -1) } := by
  cases ev with
  | connect => simp [onClientEvent, onConnection]
  | disconnect =>
    simp only [onClientEvent, onDisconnection]
    split <;> simp <;> rfl

/-- Every entry of the trace of a sequence of events that never has more disconnections
than connections plus the `n` clients present at the start: the count after the event is
`n` plus the connections minus the disconnections so far, and the event does the teardown
when it is a disconnection that leaves the count at 0, and nothing otherwise. -/
theorem traceEvents_get :
    ∀ (evs : List ClientEvent) (s : Session) (n : Nat), s.nClients = n →
      (∀ k, (evs.take k).count .disconnect ≤ (evs.take k).count .connect + n) →
      ∀ k ev, evs[k]? = some ev →
        (traceEvents s evs)[k]? = some (ev,
          { s with nClients := (n : Int) + ((evs.take (k + 1)).count .connect : Int)
              - ((evs.take (k + 1)).count .disconnect : Int) },
          if ev = .disconnect ∧ (n : Int) + ((evs.take (k + 1)).count .connect : Int)
              - ((evs.take (k + 1)).count .disconnect : Int) = 0
          then teardown s else []) := by
  intro evs
  induction evs with
  | nil =>
    intro s n _ _ k ev h
    simp at h
  | cons e evs ih =>
    intro s n hs hwf k ev hk
    cases k with
    | zero =>
      simp only [List.getElem?_cons_zero, Option.some.injEq] at hk
      subst hk
      cases e with
      | connect =>
        simp [traceEvents, onClientEvent, onConnection, hs]
      | disconnect =>
        have hn : 1 ≤ n := by
          have := hwf 1
          simp at this
          omega
        simp only [traceEvents, onClientEvent, onDisconnection, hs, teardown,
          List.getElem?_cons_zero]
        by_cases h1 : (n : Int) - 1 = 0
        · simp [h1]
        · simp [h1]
    | succ k =>
      simp only [List.getElem?_cons_succ] at hk
      cases e with
      | connect =>
        have hwf2 : ∀ k, (evs.take k).count .disconnect
            ≤ (evs.take k).count .connect + (n + 1) := by
          intro k
          have := hwf (k + 1)
          simp at this
          omega
        have hs2 : (onClientEvent s .connect).1.nClients = ((n + 1 : Nat) : Int) := by
          simp [onClientEvent, onConnection, hs]
        have := ih (onClientEvent s .connect).1 (n + 1) hs2 hwf2 k ev hk
        simp only [traceEvents, List.getElem?_cons_succ, this]
        simp [onClientEvent, onConnection, teardown]
        constructor
        · omega
        · refine if_congr ?_ rfl rfl
          constructor <;> intro h <;> exact ⟨h.1, by have := h.2; omega⟩
      | disconnect =>
        have hn : 1 ≤ n := by
          have := hwf 1
          simp at this
          omega
        have hwf2 : ∀ k, (evs.take k).count .disconnect
            ≤ (evs.take k).count .connect + (n - 1) := by
          intro k
          have := hwf (k + 1)
          simp at this
          omega
        have hs2 : (onClientEvent s .disconnect).1.nClients = ((n - 1 : Nat) : Int) := by
          rw [onClientEvent_session, hs]
          simp
          omega
        have hT : teardown (onClientEvent s .disconnect).1 = teardown s := by
          rw [onClientEvent_session]
          rfl
        have := ih (onClientEvent s .disconnect).1 (n - 1) hs2 hwf2 k ev hk
        simp only [traceEvents, List.getElem?_cons_succ, this, hT]
        rw [onClientEvent_session]
        simp
        constructor
        · omega
        · refine if_congr ?_ rfl rfl
          constructor <;> intro h <;> exact ⟨h.1, by have := h.2; omega⟩

/-- The trace has one entry per event. -/
theorem traceEvents_length (evs : List ClientEvent) :
    ∀ s : Session, (traceEvents s evs).length = evs.length := by
  induction evs with
  | nil => intro s; rfl
  | cons e evs ih => intro s; simp [traceEvents, ih]

/-- C8: from a client count of 0, over events in which no prefix has more
disconnections than connections, the trace has one entry per event; after each event the
session is the initial one with the client count equal to the connections minus the
disconnections so far, which is never negative; the event does the teardown when it is a
disconnection that leaves this count at 0 and does nothing otherwise; and after as many
disconnections as connections the last event is such a disconnection. -/
theorem client_count_teardown (s : Session) (hs : s.nClients = 0) (evs : List ClientEvent)
    (hwf : ∀ k, (evs.take k).count .disconnect ≤ (evs.take k).count .connect) :
    (traceEvents s evs).length = evs.length ∧
    (∀ k ev, evs[k]? = some ev →
      (traceEvents s evs)[k]? = some (ev,
        { s with nClients := ((evs.take (k + 1)).count .connect : Int)
            - ((evs.take (k + 1)).count .disconnect : Int) },
        if ev = .disconnect ∧ ((evs.take (k + 1)).count .connect : Int)
            - ((evs.take (k + 1)).count .disconnect : Int) = 0
        then teardown s else []) ∧
      (0 : Int) ≤ ((evs.take (k + 1)).count .connect : Int)
        - ((evs.take (k + 1)).count .disconnect : Int)) ∧
    (∀ st ∈ traceEvents s evs, 0 ≤ st.2.1.nClients ∧
      st.2.2 = (if st.1 = .disconnect ∧ st.2.1.nClients = 0 then teardown s else [])) ∧
    (evs ≠ [] → evs.count .connect = evs.count .disconnect →
      ∃ st, (traceEvents s evs).getLast? = some st ∧ st.1 = .disconnect ∧
        st.2.1.nClients = 0 ∧ st.2.2 = teardown s) := by
  obtain ⟨h1, h2⟩ := traceEvents_inv evs s 0 (by simp [hs]) (by simpa using hwf)
  refine ⟨traceEvents_length evs s, ?_, fun st hst => ⟨(h1 st hst).1, (h1 st hst).2.2⟩, ?_⟩
  · intro k ev hk
    have hg := traceEvents_get evs s 0 (by simp [hs]) (by simpa using hwf) k ev hk
    simp only [Nat.cast_zero, zero_add] at hg
    refine ⟨hg, ?_⟩
    have := hwf (k + 1)
    omega
  · intro hne hcount
    cases hlast : (traceEvents s evs).getLast? with
    | none =>
      rw [List.getLast?_eq_none_iff] at hlast
      cases evs with
      | nil => exact absurd rfl hne
      | cons e es => simp [traceEvents] at hlast
    | some st =>
      have hn : st.2.1.nClients = 0 := by
        rw [h2 st hlast, hcount]; simp
      obtain ⟨_, hc, hout⟩ := h1 st (List.mem_of_getLast?_eq_some hlast)
      have hd : st.1 = .disconnect := by
        cases hev : st.1 with
        | connect => have := hc hev; omega
        | disconnect => rfl
      refine ⟨st, rfl, hd, hn, ?_⟩
      rw [hout, if_pos ⟨hd, hn⟩]

/-- C8, on two connections followed by two disconnections: the counts after the four
events are 1, 2, 1 and 0, the first disconnection leaves a client connected and does
nothing, and only the last event does the teardown. -/
theorem client_count_teardown_witness :
    (Session.init 0).nClients = 0 ∧
    traceEvents (Session.init 0) [.connect, .connect, .disconnect, .disconnect]
      = [(.connect, { Session.init 0 with nClients := 1 }, []),
         (.connect, { Session.init 0 with nClients := 2 }, []),
         (.disconnect, { Session.init 0 with nClients := 1 }, []),
         (.disconnect, { Session.init 0 with nClients := 0 },
            [.unsubscribe_from_gaze_data])] ∧
    ((traceEvents (Session.init 0)
        [.connect, .connect, .disconnect, .disconnect])[2]?
      = some (.disconnect,
        { Session.init 0 with nClients :=
            (((([.connect, .connect, .disconnect, .disconnect] : List ClientEvent).take
              (2 + 1)).count .connect : Nat) : Int)
            - (((([.connect, .connect, .disconnect, .disconnect] : List ClientEvent).take
              (2 + 1)).count .disconnect : Nat) : Int) },
        if ClientEvent.disconnect = .disconnect ∧
            (((([.connect, .connect, .disconnect, .disconnect] : List ClientEvent).take
              (2 + 1)).count .connect : Nat) : Int)
            - (((([.connect, .connect, .disconnect, .disconnect] : List ClientEvent).take
              (2 + 1)).count .disconnect : Nat) : Int) = 0
        then teardown (Session.init 0) else []) ∧
      (0 : Int) ≤
        (((([.connect, .connect, .disconnect, .disconnect] : List ClientEvent).take
          (2 + 1)).count .connect : Nat) : Int)
        - (((([.connect, .connect, .disconnect, .disconnect] : List ClientEvent).take
          (2 + 1)).count .disconnect : Nat) : Int)) ∧
    (∃ st, (traceEvents (Session.init 0)
          [.connect, .connect, .disconnect, .disconnect]).getLast? = some st ∧
        st.1 = .disconnect ∧ st.2.1.nClients = 0 ∧ st.2.2 = teardown (Session.init 0)) :=
  ⟨rfl, by simp [traceEvents, onClientEvent, onConnection, onDisconnection, Session.init],
   (client_count_teardown (Session.init 0) rfl [.connect, .connect, .disconnect, .disconnect]
      (by intro k; rcases k with _ | _ | _ | _ | _ | k <;> simp [List.take])).2.1
      2 .disconnect rfl,
   (client_count_teardown (Session.init 0) rfl [.connect, .connect, .disconnect, .disconnect]
      (by intro k; rcases k with _ | _ | _ | _ | _ | k <;> simp [List.take])).2.2.2
      (by simp) (by decide)⟩

/-- C3, with the downsample factor 3, the tick 1 and three samples. -/
theorem broadcast_one_in_N_witness :
    ∃ (last : Int) (outs : List (List Effect)),
      runCallbacks (3 : Nat) (1 : Nat)
        [exampleSample 1 .TOBII_RESEARCH_VALIDITY_VALID (some 0) (some 0)
            .TOBII_RESEARCH_VALIDITY_VALID (some 0) (some 0),
         exampleSample 2 .TOBII_RESEARCH_VALIDITY_VALID (some 0) (some 0)
            .TOBII_RESEARCH_VALIDITY_VALID (some 0) (some 0),
         exampleSample 3 .TOBII_RESEARCH_VALIDITY_VALID (some 0) (some 0)
            .TOBII_RESEARCH_VALIDITY_VALID (some 0) (some 0)] = .ok (last, outs) ∧
      outs.length = 3 ∧
      (∀ (k : Nat) (hk : k < 3),
        outs[k]? = some (if (1 + (k + 1)) % 3 = 0
          then [Effect.broadcast (formatSampleAsJSON
            ([exampleSample 1 .TOBII_RESEARCH_VALIDITY_VALID (some 0) (some 0)
                .TOBII_RESEARCH_VALIDITY_VALID (some 0) (some 0),
              exampleSample 2 .TOBII_RESEARCH_VALIDITY_VALID (some 0) (some 0)
                .TOBII_RESEARCH_VALIDITY_VALID (some 0) (some 0),
              exampleSample 3 .TOBII_RESEARCH_VALIDITY_VALID (some 0) (some 0)
                .TOBII_RESEARCH_VALIDITY_VALID (some 0) (some 0)][k]))] else [])) ∧
      (∀ m, m + 3 ≤ 3 →
        (List.range' m 3).countP (fun k => (outs.getD k []).any isBroadcast) = 1 ∧
        (List.range' m 3).countP (fun k => !(outs.getD k []).any isBroadcast) = 3 - 1) :=
  broadcast_one_in_N 3 1 (by decide) _


/-! ## Protocol errors -/

/-- C6, the payload `null`: it parses and has no `action` field, and the reply is the
`invalidJson` error, not the `jsonMissingParam` error. -/
theorem onMessage_null_is_invalidJson :
    Json.count .null "action" = 0 ∧
    onMessage (Session.init 0) (exampleSdk [60]) (some .null)
      = .ok (Session.init 0, [.send (.obj [ ("error", .str "invalidJson") ])]) ∧
    onMessage (Session.init 0) (exampleSdk [60]) (some .null)
      ≠ .ok (Session.init 0, [.send (jsonMissingParam "action")]) := by
  refine ⟨rfl, rfl, ?_⟩
  simp [onMessage, Json.is_null, jsonMissingParam]

/-- C6: a payload that the parser discards or that is the JSON value `null` gets the
reply `invalidJson`; any other value without an `action` field gets `jsonMissingParam`
for `action`; an action string outside `actionTypeMap` gets `Unrecognized action` with that
string.  In each case that reply is all the handler does and the session is unchanged. -/
theorem onMessage_protocol_errors (s : Session) (sdk : Sdk) :
    onMessage s sdk none = .ok (s, [.send (.obj [ ("error", .str "invalidJson") ])]) ∧
    onMessage s sdk (some .null) = .ok (s, [.send (.obj [ ("error", .str "invalidJson") ])]) ∧
    (∀ j : Json, j.is_null = false → j.count "action" = 0 →
      onMessage s sdk (some j)
        = .ok (s, [.send (.obj [ ("error", .str "jsonMissingParam"),
                                 ("param", .str "action") ])])) ∧
    (∀ (j : Json) (a : String), j.atKey "action" = .ok (.str a) →
      actionTypeMap.lookup a = none →
      onMessage s sdk (some j)
        = .ok (s, [.send (.obj [ ("error", .str "Unrecognized action"),
                                 ("action", .str a) ])])) := by
  refine ⟨rfl, rfl, ?_, ?_⟩
  · intro j hnull hcount
    simp [onMessage, hnull, hcount, jsonMissingParam]
  · intro j a hat hlook
    cases j with
    | obj kvs =>
      have hl : kvs.lookup "action" = some (.str a) := by
        simp only [Json.atKey] at hat
        split at hat
        · injection hat with hat; subst hat; assumption
        · cases hat
      simp [onMessage, Json.is_null, Json.count, hl, hat, Json.getString, hlook]
    | null => simp [Json.atKey] at hat
    | bool b => simp [Json.atKey] at hat
    | num q => simp [Json.atKey] at hat
    | str t => simp [Json.atKey] at hat
    | arr xs => simp [Json.atKey] at hat

/-- C6, on the payload `[]`, which has no `action` field, and on the action
`calibrate`, which is not in `actionTypeMap`. -/
theorem onMessage_protocol_errors_witness :
    onMessage (Session.init 0) (exampleSdk [60]) (some (.arr []))
      = .ok (Session.init 0, [.send (.obj [ ("error", .str "jsonMissingParam"),
                               ("param", .str "action") ])]) ∧
    onMessage (Session.init 0) (exampleSdk [60]) (some (.obj [ ("action", .str "calibrate") ]))
      = .ok (Session.init 0, [.send (.obj [ ("error", .str "Unrecognized action"),
                               ("action", .str "calibrate") ])]) :=
  ⟨(onMessage_protocol_errors (Session.init 0) (exampleSdk [60])).2.2.1 (.arr []) rfl rfl,
   (onMessage_protocol_errors (Session.init 0) (exampleSdk [60])).2.2.2
     (.obj [ ("action", .str "calibrate") ]) "calibrate" rfl rfl⟩

/-! ## Commands on an idle session -/

/-- C7, `stopSampleBuffer` on the initial session, which has no buffer: the reply has
status `false`, whatever the buffer would answer. -/
theorem stopSampleBuffer_without_buffer_status_false :
    onMessage (Session.init 0) (exampleSdk [60]) (actionMsg "stopSampleBuffer")
      = .ok (Session.init 0,
          [.send (.obj [ ("action", .str "stopSampleBuffer"), ("status", .bool false) ])]) := by
  simp [onMessage, actionMsg, Json.is_null, Json.count, Json.atKey, Json.getString, List.lookup,
    actionTypeMap, dispatch, handleStopSampleBuffer, Session.init]

/-- C7: in a session without a buffer, `clearSampleBuffer` replies with status `true`,
`stopSampleBuffer` replies with status `false` and no error, and `stopSampleStream`
replies with status `true` when the unsubscribe call reports OK; none changes the
session. -/
theorem idle_commands (s : Session) (sdk : Sdk) (hbuf : s.TittaInstance = none)
    (hunsub : sdk.unsubscribe_from_gaze_data = TOBII_RESEARCH_STATUS_OK) :
    onMessage s sdk (actionMsg "clearSampleBuffer")
      = .ok (s, [.send (.obj [ ("action", .str "clearSampleBuffer"), ("status", .bool true) ])]) ∧
    onMessage s sdk (actionMsg "stopSampleBuffer")
      = .ok (s, [.send (.obj [ ("action", .str "stopSampleBuffer"), ("status", .bool false) ])]) ∧
    onMessage s sdk (actionMsg "stopSampleStream")
      = .ok (s, [.unsubscribe_from_gaze_data,
                 .send (.obj [ ("action", .str "stopSampleStream"), ("status", .bool true) ])]) := by
  refine ⟨?_, ?_, ?_⟩
  · simp [onMessage, actionMsg, Json.is_null, Json.count, Json.atKey, Json.getString,
      List.lookup, actionTypeMap, dispatch, handleClearSampleBuffer, hbuf]
  · simp [onMessage, actionMsg, Json.is_null, Json.count, Json.atKey, Json.getString,
      List.lookup, actionTypeMap, dispatch, handleStopSampleBuffer, hbuf]
  · simp [onMessage, actionMsg, Json.is_null, Json.count, Json.atKey, Json.getString,
      List.lookup, actionTypeMap, dispatch, handleStopSampleStream, hunsub]

/-- C7, on the initial session. -/
theorem idle_commands_witness :
    (Session.init 0).TittaInstance = none ∧
    (exampleSdk [60]).unsubscribe_from_gaze_data = TOBII_RESEARCH_STATUS_OK ∧
    (onMessage (Session.init 0) (exampleSdk [60]) (actionMsg "clearSampleBuffer")
      = .ok (Session.init 0,
          [.send (.obj [ ("action", .str "clearSampleBuffer"), ("status", .bool true) ])]) ∧
    onMessage (Session.init 0) (exampleSdk [60]) (actionMsg "stopSampleBuffer")
      = .ok (Session.init 0,
          [.send (.obj [ ("action", .str "stopSampleBuffer"), ("status", .bool false) ])]) ∧
    onMessage (Session.init 0) (exampleSdk [60]) (actionMsg "stopSampleStream")
      = .ok (Session.init 0, [.unsubscribe_from_gaze_data,
                 .send (.obj [ ("action", .str "stopSampleStream"), ("status", .bool true) ])])) :=
  ⟨rfl, rfl, idle_commands (Session.init 0) (exampleSdk [60]) rfl rfl⟩

/-! ## The stream frequency guard -/

/-- A message either carries no recognised action, and then the handler fails or only
sends an error reply, or it is dispatched on its action. -/
theorem onMessage_cases (s : Session) (sdk : Sdk) (msg : Option Json) :
    (actionOf msg = none ∧
      ((∃ e, onMessage s sdk msg = .error e) ∨
       (∃ reply, onMessage s sdk msg = .ok (s, [.send reply]) ∧
          isSuccessReply (.send reply) = false ∧ reply.hasKey "error" = true))) ∨
    (∃ act j, msg = some j ∧ actionOf msg = some act ∧
      onMessage s sdk msg = dispatch s sdk j act) := by
  cases msg with
  | none => left; exact ⟨rfl, Or.inr ⟨_, rfl, rfl, rfl⟩⟩
  | some j =>
    cases j with
    | null => left; exact ⟨rfl, Or.inr ⟨_, rfl, rfl, rfl⟩⟩
    | bool b => left; exact ⟨rfl, Or.inr ⟨_, rfl, rfl, rfl⟩⟩
    | num q => left; exact ⟨rfl, Or.inr ⟨_, rfl, rfl, rfl⟩⟩
    | str t => left; exact ⟨rfl, Or.inr ⟨_, rfl, rfl, rfl⟩⟩
    | arr xs => left; exact ⟨rfl, Or.inr ⟨_, rfl, rfl, rfl⟩⟩
    | obj kvs =>
      cases hl : kvs.lookup "action" with
      | none =>
        left
        refine ⟨by simp [actionOf, hl], Or.inr ⟨jsonMissingParam "action", ?_, rfl, rfl⟩⟩
        simp [onMessage, Json.is_null, Json.count, hl]
      | some v =>
        cases v with
        | str a =>
          cases hm : actionTypeMap.lookup a with
          | none =>
            left
            refine ⟨by simp [actionOf, hl, hm], Or.inr
              ⟨.obj [ ("error", .str "Unrecognized action"), ("action", .str a) ], ?_, rfl, rfl⟩⟩
            simp [onMessage, Json.is_null, Json.count, Json.atKey, hl, Json.getString, hm]
          | some act =>
            right
            refine ⟨act, _, rfl, by simp [actionOf, hl, hm], ?_⟩
            simp [onMessage, Json.is_null, Json.count, Json.atKey, hl, Json.getString, hm]
        | null =>
          left
          refine ⟨by simp [actionOf, hl], Or.inl ⟨.jsonTypeError, ?_⟩⟩
          simp [onMessage, Json.is_null, Json.count, Json.atKey, hl, Json.getString]
        | bool b =>
          left
          refine ⟨by simp [actionOf, hl], Or.inl ⟨.jsonTypeError, ?_⟩⟩
          simp [onMessage, Json.is_null, Json.count, Json.atKey, hl, Json.getString]
        | num q =>
          left
          refine ⟨by simp [actionOf, hl], Or.inl ⟨.jsonTypeError, ?_⟩⟩
          simp [onMessage, Json.is_null, Json.count, Json.atKey, hl, Json.getString]
        | arr xs =>
          left
          refine ⟨by simp [actionOf, hl], Or.inl ⟨.jsonTypeError, ?_⟩⟩
          simp [onMessage, Json.is_null, Json.count, Json.atKey, hl, Json.getString]
        | obj kvs2 =>
          left
          refine ⟨by simp [actionOf, hl], Or.inl ⟨.jsonTypeError, ?_⟩⟩
          simp [onMessage, Json.is_null, Json.count, Json.atKey, hl, Json.getString]


/-- The negotiation step clears `needSetSampleStreamFreq` exactly when it sends the
success reply. -/
theorem setSampleStreamFreqWith_needSet (s : Session) (sdk : Sdk) (freq : ℚ) (fs : List ℚ)
    (pre : List Effect) (hpre : pre.any isSuccessReply = false) (s1 : Session)
    (out : List Effect) (h : setSampleStreamFreqWith s sdk freq fs pre = .ok (s1, out)) :
    s1.needSetSampleStreamFreq
      = (if out.any isSuccessReply then false else s.needSetSampleStreamFreq) := by
  unfold setSampleStreamFreqWith at h
  split at h
  · cases h
  · injection h with h
    injection h with h1 h2
    subst h1; subst h2
    cases hb : s.baseSampleFreq <;>
      simp [hpre, noMatchReply, isSuccessReply, List.lookup]
  · simp only at h
    split at h
    · injection h with h
      injection h with h1 h2
      subst h1; subst h2
      simp [hpre, sendTobiiErrorAsJson, isSuccessReply, List.lookup]
    · injection h with h
      injection h with h1 h2
      subst h1; subst h2
      simp [hpre, isSuccessReply, List.lookup]

/-- The case `Action::Connect` leaves `needSetSampleStreamFreq` alone. -/
theorem handleConnect_needSet (s : Session) (sdk : Sdk) (s1 : Session) (out : List Effect)
    (h : handleConnect s sdk = .ok (s1, out)) :
    s1.needSetSampleStreamFreq = s.needSetSampleStreamFreq := by
  unfold handleConnect at h
  cases he : s.eyeTracker with
  | some t =>
    simp only [he] at h
    repeat' split at h
    all_goals first
      | (cases h; done)
      | (cases h; rfl)
  | none =>
    simp only [he] at h
    by_cases hf : sdk.find_all_eyetrackers.1 ≠ TOBII_RESEARCH_STATUS_OK
    · simp only [if_pos hf] at h
      injection h with h; injection h with h1 h2; subst h1; rfl
    · simp only [if_neg hf] at h
      cases ht : sdk.find_all_eyetrackers.2 with
      | nil => simp only [ht] at h; cases h
      | cons t ts =>
        simp only [ht] at h
        repeat' split at h
        all_goals first
          | (cases h; done)
          | (cases h; rfl)

/-- How one dispatched action changes `needSetSampleStreamFreq`. -/
theorem dispatch_needSet (s : Session) (sdk : Sdk) (j : Json) (act : Action) (s1 : Session)
    (out : List Effect) (h : dispatch s sdk j act = .ok (s1, out)) :
    s1.needSetSampleStreamFreq
      = (if act = .SetSampleStreamFreq ∧ out.any isSuccessReply then false
         else if act = .SetBaseSampleFreq ∧ out.any isSuccessReply then true
         else s.needSetSampleStreamFreq) := by
  cases act with
  | Connect =>
    simp only [dispatch] at h
    simp [handleConnect_needSet s sdk s1 out h]
  | SetSampleStreamFreq =>
    simp only [dispatch, handleSetSampleStreamFreq] at h
    simp only [reduceCtorEq, true_and, false_and, if_false]
    split at h
    · injection h with h; injection h with h1 h2; subst h1; subst h2
      simp [jsonMissingParam, isSuccessReply, List.lookup]
    · split at h
      · cases h
      · split at h
        · cases h
        · split at h
          · exact setSampleStreamFreqWith_needSet s sdk _ _ [] rfl s1 out h
          · split at h
            · injection h with h; injection h with h1 h2; subst h1; subst h2
              simp [sendTobiiErrorAsJson, isSuccessReply, List.lookup]
            · exact setSampleStreamFreqWith_needSet s sdk _ _
                [.get_all_gaze_output_frequencies] rfl s1 out h
  | StartSampleStream =>
    simp only [dispatch, handleStartSampleStream] at h
    repeat' split at h
    all_goals (injection h with h; injection h with h1 h2; subst h1; simp)
  | StopSampleStream =>
    simp only [dispatch, handleStopSampleStream] at h
    repeat' split at h
    all_goals (injection h with h; injection h with h1 h2; subst h1; simp)
  | SetBaseSampleFreq =>
    simp only [dispatch, handleSetBaseSampleFreq] at h
    simp only [reduceCtorEq, true_and, false_and, if_false]
    split at h
    · injection h with h; injection h with h1 h2; subst h1; subst h2
      simp [jsonMissingParam, isSuccessReply, List.lookup]
    · split at h
      · cases h
      · split at h
        · cases h
        · split at h
          · injection h with h; injection h with h1 h2; subst h1; subst h2
            simp [sendTobiiErrorAsJson, isSuccessReply, List.lookup]
          · injection h with h; injection h with h1 h2; subst h1; subst h2
            simp [isSuccessReply, List.lookup]
  | StartSampleBuffer =>
    simp only [dispatch, handleStartSampleBuffer] at h
    repeat' split at h
    all_goals (injection h with h; injection h with h1 h2; subst h1; simp)
  | ClearSampleBuffer =>
    simp only [dispatch, handleClearSampleBuffer] at h
    injection h with h; injection h with h1 h2; subst h1; simp
  | PeekSamples =>
    simp only [dispatch, handlePeekSamples] at h
    repeat' split at h
    all_goals first
      | (cases h; done)
      | (cases h; simp)
  | StopSampleBuffer =>
    simp only [dispatch, handleStopSampleBuffer] at h
    repeat' split at h
    all_goals (injection h with h; injection h with h1 h2; subst h1; simp)
  | SaveData =>
    simp only [dispatch, handleSaveData] at h
    injection h with h; injection h with h1 h2; subst h1; simp
  | StoreMessage =>
    simp only [dispatch, handleStoreMessage] at h
    injection h with h; injection h with h1 h2; subst h1; simp


/-- How one message changes `needSetSampleStreamFreq`. -/
theorem onMessage_needSet (s : Session) (sdk : Sdk) (msg : Option Json) (s1 : Session)
    (out : List Effect) (h : onMessage s sdk msg = .ok (s1, out)) :
    s1.needSetSampleStreamFreq
      = (if actionOf msg = some .SetSampleStreamFreq ∧ out.any isSuccessReply then false
         else if actionOf msg = some .SetBaseSampleFreq ∧ out.any isSuccessReply then true
         else s.needSetSampleStreamFreq) := by
  rcases onMessage_cases s sdk msg with ⟨hnone, hcase⟩ | ⟨act, j, rfl, hact, hd⟩
  · rcases hcase with ⟨e, he⟩ | ⟨reply, hr, _⟩
    · rw [he] at h; cases h
    · rw [hr] at h; cases h; simp [hnone]
  · rw [hd] at h
    rw [hact]
    simpa using dispatch_needSet s sdk j act s1 out h

/-- After a run of messages `needSetSampleStreamFreq` is decided by the last successful
`setSampleStreamFreq` or `SetBaseSampleFreq`, if there is one. -/
theorem runMessages_needSet :
    ∀ (pre : List (Sdk × Option Json)) (s0 s1 : Session) (outs : List (List Effect)),
      runMessages s0 pre = .ok (s1, outs) →
      s1.needSetSampleStreamFreq
        = (match ((pre.map Prod.snd).zip outs).reverse.find?
              (fun st => (actionOf st.1 = some Action.SetSampleStreamFreq
                ∨ actionOf st.1 = some Action.SetBaseSampleFreq) ∧ st.2.any isSuccessReply) with
           | some st => !decide (actionOf st.1 = some Action.SetSampleStreamFreq)
           | none => s0.needSetSampleStreamFreq) := by
  intro pre
  induction pre with
  | nil =>
    intro s0 s1 outs h
    simp only [runMessages] at h
    cases h
    simp
  | cons p rest ih =>
    intro s0 s1 outs h
    obtain ⟨sdk, msg⟩ := p
    simp only [runMessages] at h
    split at h
    · cases h
    · rename_i s2 out hstep
      split at h
      · cases h
      · rename_i s3 outs2 hrest
        cases h
        have hflag := onMessage_needSet s0 sdk msg s2 out hstep
        have hih := ih s2 s1 outs2 hrest
        rw [hih]
        simp only [List.map_cons, List.zip_cons_cons, List.reverse_cons, List.find?_append]
        cases hfind : ((List.map Prod.snd rest).zip outs2).reverse.find?
              (fun st => (actionOf st.1 = some Action.SetSampleStreamFreq
                ∨ actionOf st.1 = some Action.SetBaseSampleFreq) ∧ st.2.any isSuccessReply) with
        | some st => simp
        | none =>
          simp only [Option.none_or, List.find?_cons, List.find?_nil]
          rw [hflag]
          by_cases hA : actionOf msg = some Action.SetSampleStreamFreq
          · by_cases hS : out.any isSuccessReply = true
            · simp [hA, hS]
            · simp [hA, hS]
          · by_cases hB : actionOf msg = some Action.SetBaseSampleFreq
            · by_cases hS : out.any isSuccessReply = true
              · simp [hA, hB, hS]
              · simp [hA, hB, hS]
            · simp [hA, hB]

/-- C4: after any sequence of messages handled from a session whose
`needSetSampleStreamFreq` is `true`, a `startSampleStream` message returns, calls
subscribe exactly when some earlier `setSampleStreamFreq` succeeded and no
`SetBaseSampleFreq` succeeded since the last one that did, and otherwise only sends the
precondition error. -/
theorem startSampleStream_guard (s0 : Session) (h0 : s0.needSetSampleStreamFreq = true)
    (pre : List (Sdk × Option Json)) (s1 : Session) (outs : List (List Effect))
    (hrun : runMessages s0 pre = .ok (s1, outs)) (sdk : Sdk) (msg : Option Json)
    (hmsg : actionOf msg = some .StartSampleStream) :
    ∃ out, onMessage s1 sdk msg = .ok (s1, out) ∧
      out.any isSubscribe = streamConfigured ((pre.map Prod.snd).zip outs) ∧
      (streamConfigured ((pre.map Prod.snd).zip outs) = false →
        out = [.send startSampleStreamError]) := by
  have hflag : s1.needSetSampleStreamFreq
      = !streamConfigured ((pre.map Prod.snd).zip outs) := by
    rw [runMessages_needSet pre s0 s1 outs hrun, streamConfigured]
    split <;> simp_all
  have hdisp : onMessage s1 sdk msg = handleStartSampleStream s1 sdk := by
    rcases onMessage_cases s1 sdk msg with ⟨hnone, _⟩ | ⟨act, j, rfl, hact, hd⟩
    · rw [hnone] at hmsg; cases hmsg
    · rw [hact] at hmsg; cases hmsg
      rw [hd]; rfl
  rw [hdisp]
  unfold handleStartSampleStream
  cases hc : streamConfigured ((pre.map Prod.snd).zip outs) with
  | false =>
    rw [hc] at hflag
    simp [hflag, isSubscribe]
  | true =>
    rw [hc] at hflag
    simp only [Bool.not_true] at hflag
    rw [hflag]
    by_cases hsub : sdk.subscribe_to_gaze_data ≠ TOBII_RESEARCH_STATUS_OK
    · simp only [Bool.false_eq_true, if_false, if_pos hsub]
      exact ⟨_, rfl, by simp [isSubscribe], by simp⟩
    · simp only [Bool.false_eq_true, if_false, if_neg hsub]
      exact ⟨_, rfl, by simp [isSubscribe], by simp⟩

/-- C4, on a successful `setSampleStreamFreq` followed by `startSampleStream`. -/
theorem startSampleStream_guard_witness :
    (Session.init 0).needSetSampleStreamFreq = true ∧
    runMessages (Session.init 0)
        [(exampleSdk [60, 120, 200], freqMsg "setSampleStreamFreq" 30)]
      = .ok ({ Session.init 2 with needSetSampleStreamFreq := false },
          [[.get_all_gaze_output_frequencies, .set_gaze_output_frequency 60,
            .send (.obj [ ("action", .str "setSampleFreq"), ("freq", .num 30),
                          ("baseFreq", .num 60), ("status", .bool true) ])]]) ∧
    actionOf (actionMsg "startSampleStream") = some .StartSampleStream ∧
    streamConfigured
        (([(exampleSdk [60, 120, 200], freqMsg "setSampleStreamFreq" 30)].map Prod.snd).zip
          [[.get_all_gaze_output_frequencies, .set_gaze_output_frequency 60,
            .send (.obj [ ("action", .str "setSampleFreq"), ("freq", .num 30),
                          ("baseFreq", .num 60), ("status", .bool true) ])]]) = true ∧
    ∃ out, onMessage { Session.init 2 with needSetSampleStreamFreq := false }
          (exampleSdk [60, 120, 200]) (actionMsg "startSampleStream")
        = .ok ({ Session.init 2 with needSetSampleStreamFreq := false }, out) ∧
      out.any isSubscribe = streamConfigured
        (([(exampleSdk [60, 120, 200], freqMsg "setSampleStreamFreq" 30)].map Prod.snd).zip
          [[.get_all_gaze_output_frequencies, .set_gaze_output_frequency 60,
            .send (.obj [ ("action", .str "setSampleFreq"), ("freq", .num 30),
                          ("baseFreq", .num 60), ("status", .bool true) ])]]) ∧
      (streamConfigured
        (([(exampleSdk [60, 120, 200], freqMsg "setSampleStreamFreq" 30)].map Prod.snd).zip
          [[.get_all_gaze_output_frequencies, .set_gaze_output_frequency 60,
            .send (.obj [ ("action", .str "setSampleFreq"), ("freq", .num 30),
                          ("baseFreq", .num 60), ("status", .bool true) ])]]) = false →
        out = [.send startSampleStreamError]) := by
  have hneg : negotiate 30 [60, 120, 200] = .ok (some (0, 60), 2) := by decide!
  have hrun : runMessages (Session.init 0)
        [(exampleSdk [60, 120, 200], freqMsg "setSampleStreamFreq" 30)]
      = .ok ({ Session.init 2 with needSetSampleStreamFreq := false },
          [[.get_all_gaze_output_frequencies, .set_gaze_output_frequency 60,
            .send (.obj [ ("action", .str "setSampleFreq"), ("freq", .num 30),
                          ("baseFreq", .num 60), ("status", .bool true) ])]]) := by
    have hg : (Json.num 30).getFloat = .ok 30 := by decide!
    have hsf : streamFreq 60 2 = some 30 := by decide!
    simp [runMessages, onMessage, freqMsg, Json.is_null, Json.count, Json.atKey, Json.getString,
      List.lookup, actionTypeMap, dispatch, handleSetSampleStreamFreq, hg,
      Session.init, exampleSdk, TOBII_RESEARCH_STATUS_OK, setSampleStreamFreqWith, hneg,
      hsf, Json.ofFloat]
  exact ⟨rfl, hrun, rfl, rfl,
    startSampleStream_guard (Session.init 0) rfl _ _ _ hrun (exampleSdk [60, 120, 200])
      (actionMsg "startSampleStream") rfl⟩

/-! ## Replies -/

/-- The negotiation step sends one reply, an object with an `action` or an `error` key. -/
theorem setSampleStreamFreqWith_sends (s : Session) (sdk : Sdk) (freq : ℚ) (fs : List ℚ)
    (pre : List Effect) (hpre : pre.filter isSend = []) (s1 : Session)
    (out : List Effect) (h : setSampleStreamFreqWith s sdk freq fs pre = .ok (s1, out)) :
    ∃ reply, out.filter isSend = [.send reply] ∧
      (reply.hasKey "action" = true ∨ reply.hasKey "error" = true) := by
  unfold setSampleStreamFreqWith at h
  split at h
  · cases h
  · cases h
    cases hb : s.baseSampleFreq <;>
      simp [hpre, List.filter_append, List.filter, isSend, noMatchReply, Json.hasKey, Json.count,
        List.lookup]
  · simp only at h
    split at h
    · cases h
      simp [hpre, List.filter_append, List.filter, isSend, sendTobiiErrorAsJson, Json.hasKey,
        Json.count, List.lookup]
    · cases h
      simp [hpre, List.filter_append, List.filter, isSend, Json.hasKey, Json.count, List.lookup]

/-- The case `Action::Connect` sends one reply, an object with an `action` or an `error`
key. -/
theorem handleConnect_sends (s : Session) (sdk : Sdk) (s1 : Session) (out : List Effect)
    (h : handleConnect s sdk = .ok (s1, out)) :
    ∃ reply, out.filter isSend = [.send reply] ∧
      (reply.hasKey "action" = true ∨ reply.hasKey "error" = true) := by
  unfold handleConnect at h
  cases he : s.eyeTracker with
  | some t =>
    simp only [he] at h
    repeat' split at h
    all_goals first
      | (cases h; done)
      | (cases h
         simp [List.filter, isSend, sendTobiiErrorAsJson, sendTobiiLicenseErrorAsJson,
           Json.hasKey, Json.count, List.lookup])
  | none =>
    simp only [he] at h
    by_cases hf : sdk.find_all_eyetrackers.1 ≠ TOBII_RESEARCH_STATUS_OK
    · simp only [if_pos hf] at h
      cases h
      simp [List.filter, isSend, sendTobiiErrorAsJson, Json.hasKey, Json.count, List.lookup]
    · simp only [if_neg hf] at h
      cases ht : sdk.find_all_eyetrackers.2 with
      | nil => simp only [ht] at h; cases h
      | cons t ts =>
        simp only [ht] at h
        repeat' split at h
        all_goals first
          | (cases h; done)
          | (cases h
             simp [List.filter, isSend, sendTobiiErrorAsJson, sendTobiiLicenseErrorAsJson,
               Json.hasKey, Json.count, List.lookup])

/-- What a dispatched action sends: nothing for `saveData` and `storeMessage`, and
otherwise one reply, which is an object with an `action` or an `error` key or, for
`peekSamples`, an array. -/
theorem dispatch_sends (s : Session) (sdk : Sdk) (j : Json) (act : Action) (s1 : Session)
    (out : List Effect) (h : dispatch s sdk j act = .ok (s1, out)) :
    ((act = .SaveData ∨ act = .StoreMessage) ∧ out.filter isSend = []) ∨
    ((act ≠ .SaveData ∧ act ≠ .StoreMessage) ∧
      ∃ reply, out.filter isSend = [.send reply] ∧
        (reply.hasKey "action" = true ∨ reply.hasKey "error" = true ∨
          (act = .PeekSamples ∧ reply.isArray = true))) := by
  cases act with
  | Connect =>
    simp only [dispatch] at h
    obtain ⟨reply, h1, h2⟩ := handleConnect_sends s sdk s1 out h
    exact Or.inr ⟨by simp, reply, h1, by tauto⟩
  | SetSampleStreamFreq =>
    simp only [dispatch, handleSetSampleStreamFreq] at h
    refine Or.inr ⟨by simp, ?_⟩
    split at h
    · cases h
      simp [List.filter, isSend, jsonMissingParam, Json.hasKey, Json.count, List.lookup]
    · split at h
      · cases h
      · split at h
        · cases h
        · split at h
          · obtain ⟨reply, h1, h2⟩ := setSampleStreamFreqWith_sends s sdk _ _ [] rfl s1 out h
            exact ⟨reply, h1, by tauto⟩
          · split at h
            · cases h
              simp [List.filter, isSend, sendTobiiErrorAsJson, Json.hasKey, Json.count,
                List.lookup]
            · obtain ⟨reply, h1, h2⟩ := setSampleStreamFreqWith_sends s sdk _ _
                [.get_all_gaze_output_frequencies] rfl s1 out h
              exact ⟨reply, h1, by tauto⟩
  | StartSampleStream =>
    simp only [dispatch, handleStartSampleStream] at h
    refine Or.inr ⟨by simp, ?_⟩
    repeat' split at h
    all_goals
      (cases h
       simp [List.filter, isSend, sendTobiiErrorAsJson, startSampleStreamError, Json.hasKey,
         Json.count, List.lookup])
  | StopSampleStream =>
    simp only [dispatch, handleStopSampleStream] at h
    refine Or.inr ⟨by simp, ?_⟩
    repeat' split at h
    all_goals
      (cases h
       simp [List.filter, isSend, sendTobiiErrorAsJson, Json.hasKey, Json.count, List.lookup])
  | SetBaseSampleFreq =>
    simp only [dispatch, handleSetBaseSampleFreq] at h
    refine Or.inr ⟨by simp, ?_⟩
    split at h
    · cases h
      simp [List.filter, isSend, jsonMissingParam, Json.hasKey, Json.count, List.lookup]
    · split at h
      · cases h
      · split at h
        · cases h
        · split at h
          · cases h
            simp [List.filter, isSend, sendTobiiErrorAsJson, Json.hasKey, Json.count,
              List.lookup]
          · cases h
            simp [List.filter, isSend, Json.hasKey, Json.count, List.lookup]
  | StartSampleBuffer =>
    simp only [dispatch, handleStartSampleBuffer] at h
    refine Or.inr ⟨by simp, ?_⟩
    repeat' split at h
    all_goals
      (cases h
       simp [List.filter, isSend, Json.hasKey, Json.count, List.lookup])
  | ClearSampleBuffer =>
    simp only [dispatch, handleClearSampleBuffer] at h
    refine Or.inr ⟨by simp, ?_⟩
    cases h
    cases s.TittaInstance <;>
      simp [List.filter, isSend, Json.hasKey, Json.count, List.lookup]
  | PeekSamples =>
    simp only [dispatch, handlePeekSamples] at h
    refine Or.inr ⟨by simp, ?_⟩
    repeat' split at h
    all_goals first
      | (cases h; done)
      | (cases h
         simp [List.filter, isSend, Json.isArray])
  | StopSampleBuffer =>
    simp only [dispatch, handleStopSampleBuffer] at h
    refine Or.inr ⟨by simp, ?_⟩
    repeat' split at h
    all_goals
      (cases h
       simp [List.filter, isSend, Json.hasKey, Json.count, List.lookup])
  | SaveData =>
    simp only [dispatch, handleSaveData] at h
    refine Or.inl ⟨by simp, ?_⟩
    cases h
    cases s.TittaInstance <;> simp [List.filter, isSend]
  | StoreMessage =>
    simp only [dispatch, handleStoreMessage] at h
    refine Or.inl ⟨by simp, ?_⟩
    cases h
    rfl

/-- What the message handler sends when it returns. -/
theorem onMessage_sends (s : Session) (sdk : Sdk) (msg : Option Json) (s1 : Session)
    (out : List Effect) (h : onMessage s sdk msg = .ok (s1, out)) :
    ((actionOf msg = some .SaveData ∨ actionOf msg = some .StoreMessage) ∧
      out.filter isSend = []) ∨
    ((actionOf msg ≠ some .SaveData ∧ actionOf msg ≠ some .StoreMessage) ∧
      ∃ reply, out.filter isSend = [.send reply] ∧
        (reply.hasKey "action" = true ∨ reply.hasKey "error" = true ∨
          (actionOf msg = some .PeekSamples ∧ reply.isArray = true))) := by
  rcases onMessage_cases s sdk msg with ⟨hnone, hcase⟩ | ⟨act, j, rfl, hact, hd⟩
  · rcases hcase with ⟨e, he⟩ | ⟨reply, hr, _, herr⟩
    · rw [he] at h; cases h
    · rw [hr] at h
      cases h
      refine Or.inr ⟨by simp [hnone], reply, by simp [List.filter, isSend], Or.inr (Or.inl herr)⟩
  · rw [hd] at h
    rw [hact]
    simpa using dispatch_sends s sdk j act s1 out h


/-- C11: the messages `saveData` and `storeMessage` are handled without any reply, on a
session without a buffer and on one with a buffer. -/
theorem saveData_storeMessage_send_nothing :
    onMessage (Session.init 0) (exampleSdk [60]) (actionMsg "saveData")
      = .ok (Session.init 0, []) ∧
    onMessage (Session.init 0) (exampleSdk [60]) (actionMsg "storeMessage")
      = .ok (Session.init 0, []) ∧
    onMessage { Session.init 0 with eyeTracker := some 1, TittaInstance := some 1 }
        (exampleSdk [60]) (actionMsg "saveData")
      = .ok ({ Session.init 0 with eyeTracker := some 1, TittaInstance := some 1 },
          [.tittaConsumeN]) := by
  refine ⟨?_, ?_, ?_⟩ <;>
    simp [onMessage, actionMsg, Json.is_null, Json.count, Json.atKey, Json.getString,
      List.lookup, actionTypeMap, dispatch, handleSaveData, handleStoreMessage, Session.init]

/-- C12, `peekSamples` on the initial session: the reply is the empty array, which is not
an object and has neither an `action` nor an `error` key. -/
theorem peekSamples_replies_with_array :
    onMessage (Session.init 0) (exampleSdk [60]) (actionMsg "peekSamples")
      = .ok (Session.init 0, [.send (.arr [])]) ∧
    (Json.arr []).hasKey "action" = false ∧ (Json.arr []).hasKey "error" = false := by
  refine ⟨?_, rfl, rfl⟩
  simp [onMessage, actionMsg, Json.is_null, Json.count, Json.atKey, Json.getString,
    List.lookup, actionTypeMap, dispatch, handlePeekSamples, Session.init]

/-! ## The order of the scan -/

/-- A pass of the loop over a frequency list that is not empty is one pass of its body
followed by the loop over the rest. -/
theorem negotiateLoop_cons (r : ℚ) (i : Nat) (x : ℚ) (xs : List ℚ)
    (acc res : Option (Nat × ℚ) × Int) (h : negotiateLoop r i (x :: xs) acc = .ok res) :
    ∃ acc1, NegStep r i x acc acc1 ∧ negotiateLoop r (i + 1) xs acc1 = .ok res := by
  obtain ⟨best, d⟩ := acc
  simp only [negotiateLoop] at h
  split at h
  · cases h
  · rename_i a ha
    split at h
    · cases h
    · rename_i b hb
      split at h
      · cases h
      · rename_i m hm
        have ha2 := floatToInt_ok ha
        have hb2 := floatToInt_ok hb
        have hm2 := (intMod_ok hm).1
        have hiff : isCandidate r x ↔ m = 0 := by
          unfold isCandidate roundHalf
          rw [← ha2, ← hb2, ← hm2]
        split at h
        · rename_i hm0
          split at h
          · cases h
          · rename_i t ht
            have ht2 : t = roundHalf (floatDiv x r) := floatToInt_ok ht
            split at h
            · rename_i hlt
              exact ⟨_, Or.inr (Or.inl ⟨hiff.2 hm0, by rw [← ht2]; exact hlt, rfl⟩),
                by rw [← ht2]; exact h⟩
            · rename_i hnlt
              exact ⟨_, Or.inr (Or.inr ⟨hiff.2 hm0, by rw [← ht2]; exact hnlt, rfl⟩), h⟩
        · rename_i hm0
          exact ⟨_, Or.inl ⟨fun hc => hm0 (hiff.1 hc), rfl⟩, h⟩

/-- One pass of the loop body keeps both invariants. -/
theorem NegStep_inv (r : ℚ) (seen : List ℚ) (x : ℚ) (acc acc1 : Option (Nat × ℚ) × Int)
    (hstep : NegStep r seen.length x acc acc1) (h1 : NegInv r seen acc)
    (h2 : NegInvFirst r seen acc) :
    NegInv r (seen ++ [x]) acc1 ∧ NegInvFirst r (seen ++ [x]) acc1 := by
  have keepFirst : NegInvFirst r (seen ++ [x]) acc := by
    intro j f hjf
    obtain ⟨hj, hlt⟩ := h2 j f hjf
    have hjlen : j < seen.length := by
      by_contra hcon
      rw [List.getElem?_eq_none (by omega)] at hj
      cases hj
    refine ⟨by rw [List.getElem?_append_left hjlen]; exact hj, ?_⟩
    intro k g hk hkg hc
    rw [List.getElem?_append_left (by omega)] at hkg
    exact hlt k g hk hkg hc
  have keepBest : ∀ j f, acc.1 = some (j, f) →
      f ∈ seen ++ [x] ∧ isCandidate r f ∧ acc.2 = roundHalf (floatDiv f r) := by
    intro j f hjf
    obtain ⟨a, b, c⟩ := h1.2 j f hjf
    exact ⟨List.mem_append_left _ a, b, c⟩
  rcases hstep with ⟨hnc, rfl⟩ | ⟨hc, hlt, rfl⟩ | ⟨hc, hnlt, rfl⟩
  · refine ⟨⟨?_, keepBest⟩, keepFirst⟩
    intro g hg hcg
    rcases List.mem_append.1 hg with hg | hg
    · exact h1.1 g hg hcg
    · simp at hg; subst hg; exact absurd hcg hnc
  · refine ⟨⟨?_, ?_⟩, ?_⟩
    · intro g hg hcg
      rcases List.mem_append.1 hg with hg | hg
      · exact le_trans (le_of_lt hlt) (h1.1 g hg hcg)
      · simp at hg; subst hg; exact le_refl _
    · intro j f hjf
      simp only [Option.some.injEq, Prod.mk.injEq] at hjf
      obtain ⟨_, rfl⟩ := hjf
      exact ⟨by simp, hc, rfl⟩
    · intro j f hjf
      simp only [Option.some.injEq, Prod.mk.injEq] at hjf
      obtain ⟨rfl, rfl⟩ := hjf
      refine ⟨by simp, ?_⟩
      intro k g hk hkg hcg
      rw [List.getElem?_append_left hk] at hkg
      have hmem : g ∈ seen := List.getElem?_mem hkg
      exact lt_of_lt_of_le hlt (h1.1 g hmem hcg)
  · refine ⟨⟨?_, keepBest⟩, keepFirst⟩
    intro g hg hcg
    rcases List.mem_append.1 hg with hg | hg
    · exact h1.1 g hg hcg
    · simp at hg; subst hg; exact not_lt.1 hnlt

/-- The loop keeps both invariants from the frequencies seen to all of them. -/
theorem negotiateLoop_first (r : ℚ) :
    ∀ (xs seen : List ℚ) (acc res : Option (Nat × ℚ) × Int),
      negotiateLoop r seen.length xs acc = .ok res → NegInv r seen acc →
      NegInvFirst r seen acc →
      NegInv r (seen ++ xs) res ∧ NegInvFirst r (seen ++ xs) res := by
  intro xs
  induction xs with
  | nil =>
    intro seen acc res h h1 h2
    simp only [negotiateLoop] at h
    cases h
    simpa using ⟨h1, h2⟩
  | cons x xs ih =>
    intro seen acc res h h1 h2
    obtain ⟨acc1, hstep, hrest⟩ := negotiateLoop_cons r seen.length x xs acc res h
    obtain ⟨h3, h4⟩ := NegStep_inv r seen x acc acc1 hstep h1 h2
    have hlen : (seen ++ [x]).length = seen.length + 1 := by simp
    rw [← hlen] at hrest
    have := ih (seen ++ [x]) acc1 res hrest h3 h4
    simpa using this

/-- C13: when the negotiation succeeds with the frequency at position `i`, every
candidate at an earlier position has a strictly larger factor and no candidate has a
smaller one: among the candidates with the least factor, the first in scan order is
chosen. -/
theorem negotiate_first_minimal_wins (r : ℚ) (S : List ℚ) (i : Nat) (f : ℚ) (d : Int)
    (h : negotiate r S = .ok (some (i, f), d)) :
    S[i]? = some f ∧ isCandidate r f ∧ d = roundHalf (floatDiv f r) ∧
    (∀ g ∈ S, isCandidate r g → d ≤ roundHalf (floatDiv g r)) ∧
    (∀ k g, k < i → S[k]? = some g → isCandidate r g → d < roundHalf (floatDiv g r)) := by
  obtain ⟨h1, h2⟩ := negotiateLoop_first r S [] (none, 9999) (some (i, f), d) h
    ⟨by simp, by simp⟩ (by intro j f hjf; cases hjf)
  simp only [List.nil_append] at h1 h2
  obtain ⟨_, hc, hd⟩ := h1.2 i f rfl
  obtain ⟨hi, hlt⟩ := h2 i f rfl
  exact ⟨hi, hc, hd, h1.1, hlt⟩

/-- C13, on the supported frequencies 60.4 (the binary32 value nearest to it), 60, 120
and the request 30: the first two are candidates with the factor 2, and the first one is
chosen. -/
theorem negotiate_first_minimal_wins_witness :
    negotiate 30 [toFloat (604 / 10), 60, 120] = .ok (some (0, toFloat (604 / 10)), 2) ∧
    isCandidate 30 60 ∧ roundHalf (floatDiv 60 30) = 2 ∧
    ([toFloat (604 / 10), 60, 120] : List ℚ)[0]? = some (toFloat (604 / 10)) ∧
    isCandidate 30 (toFloat (604 / 10)) ∧
    (2 : Int) = roundHalf (floatDiv (toFloat (604 / 10)) 30) ∧
    (∀ g ∈ ([toFloat (604 / 10), 60, 120] : List ℚ), isCandidate 30 g →
      (2 : Int) ≤ roundHalf (floatDiv g 30)) ∧
    (∀ k g, k < 0 → ([toFloat (604 / 10), 60, 120] : List ℚ)[k]? = some g →
      isCandidate 30 g → (2 : Int) < roundHalf (floatDiv g 30)) :=
  ⟨by decide!, by decide!, by decide!,
    negotiate_first_minimal_wins 30 [toFloat (604 / 10), 60, 120] 0 (toFloat (604 / 10)) 2
      (by decide!)⟩

/-! ## Setting the base frequency -/

/-- A message with a recognised action is dispatched on that action. -/
theorem onMessage_dispatch (s : Session) (sdk : Sdk) (j : Json) (act : Action)
    (hact : actionOf (some j) = some act) :
    onMessage s sdk (some j) = dispatch s sdk j act := by
  rcases onMessage_cases s sdk (some j) with ⟨hnone, _⟩ | ⟨act2, j2, hj, hact2, hd⟩
  · rw [hnone] at hact; cases hact
  · cases hj
    rw [hact2] at hact
    cases hact
    exact hd

/-- A key that `at` finds is counted. -/
theorem count_of_atKey (j : Json) (key : String) (v : Json) (h : j.atKey key = .ok v) :
    j.count key ≠ 0 := by
  cases j with
  | obj kvs =>
    simp only [Json.atKey] at h
    split at h
    · rename_i w hw
      simp [Json.count, hw]
    · cases h
  | null => cases h
  | bool b => cases h
  | num q => cases h
  | str t => cases h
  | arr xs => cases h

/-- C15: a `SetBaseSampleFreq` message with a numeric `freq` for which the device call
succeeds stores `freq` as the base frequency, sets `needSetSampleStreamFreq`, issues an
unsubscribe and changes nothing else; when the device call fails or `freq` is missing
the session is unchanged and no unsubscribe is issued. -/
theorem setBaseSampleFreq_frame (s : Session) (sdk : Sdk) (j : Json)
    (hact : actionOf (some j) = some .SetBaseSampleFreq) :
    (∀ v freq, j.atKey "freq" = .ok v → v.getFloat = .ok freq →
      (sdk.set_gaze_output_frequency freq = TOBII_RESEARCH_STATUS_OK →
        onMessage s sdk (some j)
          = .ok ({ s with baseSampleFreq := some freq, needSetSampleStreamFreq := true },
              [.set_gaze_output_frequency freq, .unsubscribe_from_gaze_data,
               .send (.obj [ ("action", .str "setSampleFreq"), ("freq", .num freq),
                             ("status", .bool true) ])])) ∧
      (sdk.set_gaze_output_frequency freq ≠ TOBII_RESEARCH_STATUS_OK →
        onMessage s sdk (some j)
          = .ok (s, [.set_gaze_output_frequency freq,
              sendTobiiErrorAsJson sdk (sdk.set_gaze_output_frequency freq)
                "Problem setting sampling frequency"]))) ∧
    (j.count "freq" = 0 →
      onMessage s sdk (some j) = .ok (s, [.send (jsonMissingParam "freq")])) := by
  rw [onMessage_dispatch s sdk j _ hact]
  simp only [dispatch, handleSetBaseSampleFreq]
  refine ⟨?_, ?_⟩
  · intro v freq hv hf
    have hc := count_of_atKey j "freq" v hv
    simp only [if_neg hc, hv, hf]
    refine ⟨?_, ?_⟩
    · intro hok
      simp [hok]
    · intro hfail
      simp [hfail]
  · intro hc
    simp [hc]

/-- C15, on the initial session: `SetBaseSampleFreq` with `freq` 120 on a device that
accepts it, on a device that refuses it, and without `freq`. -/
theorem setBaseSampleFreq_frame_witness :
    onMessage (Session.init 4) (exampleSdk [60, 120]) (freqMsg "SetBaseSampleFreq" 120)
      = .ok ({ Session.init 4 with baseSampleFreq := some 120, needSetSampleStreamFreq := true },
          [.set_gaze_output_frequency 120, .unsubscribe_from_gaze_data,
           .send (.obj [ ("action", .str "setSampleFreq"), ("freq", .num 120),
                         ("status", .bool true) ])]) ∧
    onMessage (Session.init 4) (refusingSdk [60, 120]) (freqMsg "SetBaseSampleFreq" 120)
      = .ok (Session.init 4, [.set_gaze_output_frequency 120,
          sendTobiiErrorAsJson (refusingSdk [60, 120]) 5
            "Problem setting sampling frequency"]) ∧
    onMessage (Session.init 4) (exampleSdk [60, 120]) (actionMsg "SetBaseSampleFreq")
      = .ok (Session.init 4, [.send (jsonMissingParam "freq")]) :=
  ⟨((setBaseSampleFreq_frame (Session.init 4) (exampleSdk [60, 120])
      (.obj [ ("action", .str "SetBaseSampleFreq"), ("freq", .num 120) ]) rfl).1
      (.num 120) 120 rfl (by decide!)).1 rfl,
   ((setBaseSampleFreq_frame (Session.init 4) (refusingSdk [60, 120])
      (.obj [ ("action", .str "SetBaseSampleFreq"), ("freq", .num 120) ]) rfl).1
      (.num 120) 120 rfl (by decide!)).2 (by decide),
   (setBaseSampleFreq_frame (Session.init 4) (exampleSdk [60, 120])
      (.obj [ ("action", .str "SetBaseSampleFreq") ]) rfl).2 rfl⟩

/-! ## The reply to every command -/

/-- C12: every reply that the message handler sends to a command other than
`peekSamples` is an object with an `action` key or an `error` key.  To `peekSamples` the
handler leaves the session as it is and sends one reply, a JSON array: the empty array
when there is no buffer, and otherwise the array of the formatted samples that `peekN`
returns, asked for with the `nSamples` of the message when it has one.  An array has
neither an `action` nor an `error` key. -/
theorem replies_are_correlated (s : Session) (sdk : Sdk) (msg : Option Json) (s1 : Session)
    (out : List Effect) (h : onMessage s sdk msg = .ok (s1, out)) :
    (actionOf msg ≠ some .PeekSamples →
      ∀ reply, Effect.send reply ∈ out →
        reply.hasKey "action" = true ∨ reply.hasKey "error" = true) ∧
    (actionOf msg = some .PeekSamples → ∃ j, msg = some j ∧ s1 = s ∧
      (s.TittaInstance = none → out = [.send (.arr [])]) ∧
      (s.TittaInstance ≠ none → j.count "nSamples" = 0 →
        out = [.tittaPeekN none,
               .send (.arr ((sdk.peekN none).map formatSampleAsJSON))]) ∧
      (s.TittaInstance ≠ none → j.count "nSamples" ≠ 0 →
        ∃ v k, j.atKey "nSamples" = .ok v ∧ v.getSize = .ok k ∧
          out = [.tittaPeekN (some k),
                 .send (.arr ((sdk.peekN (some k)).map formatSampleAsJSON))])) ∧
    (∀ l : List Json, (Json.arr l).isArray = true ∧
      (Json.arr l).hasKey "action" = false ∧ (Json.arr l).hasKey "error" = false) := by
  refine ⟨?_, ?_, fun l => ⟨rfl, rfl, rfl⟩⟩
  · intro hnp reply hmem
    have hf : Effect.send reply ∈ out.filter isSend := List.mem_filter.2 ⟨hmem, rfl⟩
    rcases onMessage_sends s sdk msg s1 out h with ⟨_, hnil⟩ | ⟨_, r, hr, hok⟩
    · rw [hnil] at hf; cases hf
    · rw [hr] at hf
      simp only [List.mem_singleton, Effect.send.injEq] at hf
      subst hf
      rcases hok with hk | hk | ⟨hp, _⟩
      · exact Or.inl hk
      · exact Or.inr hk
      · exact absurd hp hnp
  · intro hp
    cases msg with
    | none => simp [actionOf] at hp
    | some j =>
      rw [onMessage_dispatch s sdk j _ hp] at h
      simp only [dispatch, handlePeekSamples] at h
      cases hT : s.TittaInstance with
      | none =>
        rw [hT] at h
        simp only [Except.ok.injEq, Prod.mk.injEq] at h
        exact ⟨j, rfl, h.1.symm, fun _ => h.2.symm, fun hne => absurd rfl hne,
          fun hne => absurd rfl hne⟩
      | some t =>
        rw [hT] at h
        simp only at h
        by_cases hc : j.count "nSamples" = 0
        · simp only [hc, ne_eq, not_true_eq_false, if_false, Except.ok.injEq,
            Prod.mk.injEq] at h
          exact ⟨j, rfl, h.1.symm, (fun hn => nomatch hn), fun _ _ => h.2.symm,
            fun _ hne => absurd hc hne⟩
        · simp only [ne_eq, hc, not_false_eq_true, if_true] at h
          cases hv : j.atKey "nSamples" with
          | error e => rw [hv] at h; cases h
          | ok v =>
            rw [hv] at h
            simp only at h
            cases hk : v.getSize with
            | error e => rw [hk] at h; cases h
            | ok k =>
              rw [hk] at h
              simp only [Except.ok.injEq, Prod.mk.injEq] at h
              exact ⟨j, rfl, h.1.symm, (fun hn => nomatch hn), fun _ h0 => absurd h0 hc,
                fun _ _ => ⟨v, k, hv, hk, h.2.symm⟩⟩

/-- C12, on `peekSamples` with `nSamples` 1 sent to a session with a buffer that holds
two samples: the reply is the array of the first sample, formatted. -/
theorem replies_are_correlated_witness :
    onMessage { Session.init 0 with eyeTracker := some 1, TittaInstance := some 1 }
        (peekingSdk
          [exampleSample 7 .TOBII_RESEARCH_VALIDITY_INVALID none none
             .TOBII_RESEARCH_VALIDITY_VALID (some (1 / 4)) (some (3 / 4)),
           exampleSample 8 .TOBII_RESEARCH_VALIDITY_VALID (some (1 / 2)) (some (1 / 2))
             .TOBII_RESEARCH_VALIDITY_INVALID none none])
        (some (.obj [ ("action", .str "peekSamples"), ("nSamples", .num 1) ]))
      = .ok ({ Session.init 0 with eyeTracker := some 1, TittaInstance := some 1 },
          [.tittaPeekN (some 1),
           .send (.arr [ .obj [ ("ts", .num 7), ("x", .num (1 / 4)),
                                ("y", .num (3 / 4)) ] ])]) ∧
    (∀ reply, Effect.send reply ∈
        [Effect.tittaPeekN (some 1),
         Effect.send (.arr [ .obj [ ("ts", .num 7), ("x", .num (1 / 4)),
                                    ("y", .num (3 / 4)) ] ])] →
      reply.isArray = true ∧ reply.hasKey "action" = false ∧
        reply.hasKey "error" = false) ∧
    (actionOf (some (.obj [ ("action", .str "peekSamples"), ("nSamples", .num 1) ]))
        = some .PeekSamples →
      ∃ j, some (Json.obj [ ("action", .str "peekSamples"), ("nSamples", .num 1) ]) = some j ∧
      ({ Session.init 0 with eyeTracker := some 1, TittaInstance := some 1 } : Session)
        = { Session.init 0 with eyeTracker := some 1, TittaInstance := some 1 } ∧
      (({ Session.init 0 with eyeTracker := some 1, TittaInstance := some 1 } :
          Session).TittaInstance = none →
        [Effect.tittaPeekN (some 1),
         Effect.send (.arr [ .obj [ ("ts", .num 7), ("x", .num (1 / 4)),
                                    ("y", .num (3 / 4)) ] ])] = [.send (.arr [])]) ∧
      (({ Session.init 0 with eyeTracker := some 1, TittaInstance := some 1 } :
          Session).TittaInstance ≠ none → j.count "nSamples" = 0 →
        [Effect.tittaPeekN (some 1),
         Effect.send (.arr [ .obj [ ("ts", .num 7), ("x", .num (1 / 4)),
                                    ("y", .num (3 / 4)) ] ])]
          = [.tittaPeekN none,
             .send (.arr (((peekingSdk
                [exampleSample 7 .TOBII_RESEARCH_VALIDITY_INVALID none none
                   .TOBII_RESEARCH_VALIDITY_VALID (some (1 / 4)) (some (3 / 4)),
                 exampleSample 8 .TOBII_RESEARCH_VALIDITY_VALID (some (1 / 2)) (some (1 / 2))
                   .TOBII_RESEARCH_VALIDITY_INVALID none none]).peekN none).map
                formatSampleAsJSON))]) ∧
      (({ Session.init 0 with eyeTracker := some 1, TittaInstance := some 1 } :
          Session).TittaInstance ≠ none → j.count "nSamples" ≠ 0 →
        ∃ v k, j.atKey "nSamples" = .ok v ∧ v.getSize = .ok k ∧
          [Effect.tittaPeekN (some 1),
           Effect.send (.arr [ .obj [ ("ts", .num 7), ("x", .num (1 / 4)),
                                      ("y", .num (3 / 4)) ] ])]
            = [.tittaPeekN (some k),
               .send (.arr (((peekingSdk
                  [exampleSample 7 .TOBII_RESEARCH_VALIDITY_INVALID none none
                     .TOBII_RESEARCH_VALIDITY_VALID (some (1 / 4)) (some (3 / 4)),
                   exampleSample 8 .TOBII_RESEARCH_VALIDITY_VALID (some (1 / 2))
                     (some (1 / 2)) .TOBII_RESEARCH_VALIDITY_INVALID none none]).peekN
                  (some k)).map formatSampleAsJSON))])) :=
  have h : onMessage { Session.init 0 with eyeTracker := some 1, TittaInstance := some 1 }
        (peekingSdk
          [exampleSample 7 .TOBII_RESEARCH_VALIDITY_INVALID none none
             .TOBII_RESEARCH_VALIDITY_VALID (some (1 / 4)) (some (3 / 4)),
           exampleSample 8 .TOBII_RESEARCH_VALIDITY_VALID (some (1 / 2)) (some (1 / 2))
             .TOBII_RESEARCH_VALIDITY_INVALID none none])
        (some (.obj [ ("action", .str "peekSamples"), ("nSamples", .num 1) ]))
      = .ok ({ Session.init 0 with eyeTracker := some 1, TittaInstance := some 1 },
          [.tittaPeekN (some 1),
           .send (.arr [ .obj [ ("ts", .num 7), ("x", .num (1 / 4)),
                                ("y", .num (3 / 4)) ] ])]) := by
    have hsz : (Json.num 1).getSize = .ok 1 := by decide!
    simp [onMessage, Json.is_null, Json.count, Json.atKey, Json.getString, List.lookup,
      actionTypeMap, dispatch, handlePeekSamples, Session.init, peekingSdk, hsz,
      formatSampleAsJSON, exampleSample, Json.ofFloat]
  ⟨h,
   by
    intro reply hmem
    simp only [List.mem_cons, List.mem_singleton, List.not_mem_nil, or_false,
      Effect.send.injEq] at hmem
    rcases hmem with h1 | rfl
    · cases h1
    · exact ⟨rfl, rfl, rfl⟩,
   (replies_are_correlated _ _ _ _ _ h).2.1⟩

/-! ## The tick stays bounded -/

/-- A run of callbacks with a positive factor ends with a tick below the factor, unless
the run is empty. -/
theorem runCallbacks_last (N : Nat) (hN : 1 ≤ N) :
    ∀ (gs : List TobiiResearchGazeData) (t0 : Nat),
      ∃ (last : Nat) (outs : List (List Effect)),
        runCallbacks N t0 gs = .ok ((last : Int), outs) ∧ (gs ≠ [] → last < N) := by
  intro gs
  induction gs with
  | nil =>
    intro t0
    exact ⟨t0, [], rfl, fun h => absurd rfl h⟩
  | cons g gs ih =>
    intro t0
    obtain ⟨last, outs, hrun, hlast⟩ := ih ((t0 + 1) % N)
    refine ⟨last, (if (t0 + 1) % N = 0 then [Effect.broadcast (formatSampleAsJSON g)] else [])
      :: outs, ?_, ?_⟩
    · simp only [runCallbacks, tobiiBroadcastCallback_nat N t0 hN g, hrun]
    · intro _
      cases gs with
      | nil =>
        simp only [runCallbacks] at hrun
        cases hrun
        exact Nat.mod_lt _ (by omega)
      | cons g2 gs2 => exact hlast (by simp)

/-- C17: with a downsample factor `N` of at least 1 and a non-negative tick, a callback
returns with a tick from `0` up to `N - 1` and has broadcast the sample exactly when
that tick is `0`; so does every run of callbacks that is not empty. -/
theorem tick_stays_below_factor (N t : Nat) (hN : 1 ≤ N) :
    (∀ g : TobiiResearchGazeData, ∃ (tick : Int) (out : List Effect),
      tobiiBroadcastCallback N t g = .ok (tick, out) ∧ 0 ≤ tick ∧ tick < N ∧
      (out.any isBroadcast = true ↔ tick = 0)) ∧
    (∀ gs : List TobiiResearchGazeData, gs ≠ [] → ∃ (last : Int) (outs : List (List Effect)),
      runCallbacks N t gs = .ok (last, outs) ∧ 0 ≤ last ∧ last < N) := by
  refine ⟨?_, ?_⟩
  · intro g
    refine ⟨_, _, tobiiBroadcastCallback_nat N t hN g, by omega, ?_, ?_⟩
    · exact_mod_cast Nat.mod_lt _ (by omega)
    · by_cases h0 : (t + 1) % N = 0
      · simp [h0, isBroadcast]
      · have h2 : ((((t + 1) % N : Nat) : Int)) ≠ 0 := by exact_mod_cast h0
        rw [if_neg h0]
        constructor
        · intro h; simp at h
        · intro h; exact absurd h h2
  · intro gs hne
    obtain ⟨last, outs, hrun, hlast⟩ := runCallbacks_last N hN gs t
    exact ⟨last, outs, hrun, by omega, by exact_mod_cast hlast hne⟩

/-- C17, with the factor 3 and the tick 7. -/
theorem tick_stays_below_factor_witness :
    (1 : Nat) ≤ 3 ∧
    ((∀ g : TobiiResearchGazeData, ∃ (tick : Int) (out : List Effect),
      tobiiBroadcastCallback (3 : Nat) (7 : Nat) g = .ok (tick, out) ∧ 0 ≤ tick ∧
      tick < (3 : Nat) ∧ (out.any isBroadcast = true ↔ tick = 0)) ∧
    (∀ gs : List TobiiResearchGazeData, gs ≠ [] → ∃ (last : Int) (outs : List (List Effect)),
      runCallbacks (3 : Nat) (7 : Nat) gs = .ok (last, outs) ∧ 0 ≤ last ∧
      last < (3 : Nat))) :=
  ⟨by decide, tick_stays_below_factor 3 7 (by decide)⟩

/-! ## Values that binary32 holds exactly -/

/-- The counted position of the leading digit is the binary logarithm. -/
theorem log2Fuel_eq_log (fuel : Nat) : ∀ n : Nat, n ≤ fuel → log2Fuel fuel n = Nat.log 2 n := by
  induction fuel with
  | zero =>
    intro n hn
    have : n = 0 := by omega
    subst this
    simp [log2Fuel]
  | succ k ih =>
    intro n hn
    rw [log2Fuel, Nat.log]
    by_cases h : 2 ≤ n
    · have hk : n / 2 ≤ k := by omega
      simp [h, ih _ hk]
    · simp [h]

theorem ilog2_eq_log (n : Nat) : ilog2 n = Nat.log 2 n := log2Fuel_eq_log n n le_rfl

/-- The binary exponent is a lower bound: `2 ^ binade q ≤ |q|` for `q` other than `0`. -/
theorem two_zpow_binade_le (q : ℚ) (hq : q ≠ 0) : (2 : ℚ) ^ binade q ≤ |q| := by
  unfold binade
  split_ifs with h
  · exact h
  · rw [ilog2_eq_log, ilog2_eq_log]
    have hn : q.num.natAbs ≠ 0 := by
      simpa using (Rat.num_ne_zero.2 hq)
    have hd : q.den ≠ 0 := q.den_nz
    have h1 : 2 ^ Nat.log 2 q.num.natAbs ≤ q.num.natAbs := Nat.pow_log_le_self 2 hn
    have h2 : q.den < 2 ^ (Nat.log 2 q.den + 1) := Nat.lt_pow_succ_log_self (by decide) _
    have habs : |q| = (q.num.natAbs : ℚ) / (q.den : ℚ) := by
      rw [Rat.abs_def, Rat.divInt_eq_div]
      simp only [Int.cast_natCast]
    rw [habs, le_div_iff₀ (by exact_mod_cast Nat.pos_of_ne_zero hd)]
    have h1q : (2 : ℚ) ^ (Nat.log 2 q.num.natAbs) ≤ (q.num.natAbs : ℚ) := by exact_mod_cast h1
    have h2q : (q.den : ℚ) ≤ (2 : ℚ) ^ (Nat.log 2 q.den + 1) := by exact_mod_cast h2.le
    calc (2 : ℚ) ^ ((Nat.log 2 q.num.natAbs : Int) - (Nat.log 2 q.den : Int) - 1) * (q.den : ℚ)
        ≤ (2 : ℚ) ^ ((Nat.log 2 q.num.natAbs : Int) - (Nat.log 2 q.den : Int) - 1)
            * (2 : ℚ) ^ (Nat.log 2 q.den + 1) :=
          mul_le_mul_of_nonneg_left h2q (by positivity)
      _ = (2 : ℚ) ^ (Nat.log 2 q.num.natAbs) := by
          rw [← zpow_natCast (2 : ℚ) (Nat.log 2 q.den + 1), ← zpow_add₀ (by norm_num)]
          rw [← zpow_natCast]
          congr 1
          push_cast
          ring
      _ ≤ _ := h1q

/-- An integer is its own rounding. -/
theorem roundTiesEven_intCast (z : Int) : roundTiesEven (z : ℚ) = z := by
  unfold roundTiesEven
  have : Rat.floor (z : ℚ) = z := by
    show ⌊(z : ℚ)⌋ = z
    exact Int.floor_intCast z
  rw [this]
  simp

/-- Rounding to binary32 leaves `M * 2 ^ E` as it is when `|M| < 2 ^ 24` and
`-149 ≤ E`. -/
theorem toFloat_exact (M E : Int) (hM : |M| < 2 ^ 24) (hE : -149 ≤ E) :
    toFloat ((M : ℚ) * (2 : ℚ) ^ E) = (M : ℚ) * (2 : ℚ) ^ E := by
  unfold toFloat
  split_ifs with h0
  · exact h0.symm
  · have hb := two_zpow_binade_le _ h0
    have hMq : |(M : ℚ)| < (2 : ℚ) ^ (24 : Int) := by
      have : ((|M| : Int) : ℚ) < ((2 ^ 24 : Int) : ℚ) := by exact_mod_cast hM
      rw [Int.cast_abs] at this
      exact lt_of_lt_of_le this (by norm_num)
    have hlt : (2 : ℚ) ^ binade ((M : ℚ) * (2 : ℚ) ^ E) < (2 : ℚ) ^ (24 + E) := by
      refine lt_of_le_of_lt hb ?_
      rw [abs_mul, abs_of_pos (by positivity : (0 : ℚ) < (2 : ℚ) ^ E), zpow_add₀ (by norm_num)]
      exact mul_lt_mul_of_pos_right hMq (by positivity)
    have hbl : binade ((M : ℚ) * (2 : ℚ) ^ E) < 24 + E :=
      (zpow_lt_zpow_iff_right₀ (by norm_num : (1 : ℚ) < 2)).1 hlt
    set u := max (binade ((M : ℚ) * (2 : ℚ) ^ E)) (-126) - 23 with hu
    have hle : u ≤ E := by
      rw [hu]
      rcases max_cases (binade ((M : ℚ) * (2 : ℚ) ^ E)) (-126) with ⟨h1, _⟩ | ⟨h1, _⟩ <;>
        rw [h1] <;> omega
    obtain ⟨k, hk⟩ : ∃ k : Nat, E - u = k := ⟨(E - u).toNat, by omega⟩
    have hdiv : (M : ℚ) * (2 : ℚ) ^ E / (2 : ℚ) ^ u = ((M * 2 ^ k : Int) : ℚ) := by
      rw [mul_div_assoc, ← zpow_sub₀ (by norm_num), hk]
      push_cast
      rw [zpow_natCast]
    rw [hdiv, roundTiesEven_intCast, ← hdiv]
    field_simp

/-- A natural number below `2 ^ 24` is a binary32 value. -/
theorem toFloat_natCast (m : Nat) (hm : m < 2 ^ 24) : toFloat (m : ℚ) = m := by
  have h := toFloat_exact (m : Int) 0 (by rw [abs_of_nonneg (by omega)]; exact_mod_cast hm)
    (by decide)
  simpa using h

/-- For a natural number below `2 ^ 23` the sum with `.5f` is exact. -/
theorem addHalf_natCast (m : Nat) (hm : m < 2 ^ 23) : addHalf (m : ℚ) = m + 1 / 2 := by
  have h := toFloat_exact (2 * (m : Int) + 1) (-1)
    (by rw [abs_of_nonneg (by omega)]; omega) (by decide)
  have e : ((2 * (m : Int) + 1 : Int) : ℚ) * (2 : ℚ) ^ (-1 : Int) = (m : ℚ) + 1 / 2 := by
    push_cast
    rw [zpow_neg_one]
    ring
  rw [e] at h
  exact h

/-- On a rational that is not negative, truncation is the floor. -/
theorem truncate_of_nonneg (q : ℚ) (hq : 0 ≤ q) : truncate q = ⌊q⌋ := by
  unfold truncate
  rw [Rat.floor_def, Int.tdiv_eq_ediv (Rat.num_nonneg.2 hq) (by exact_mod_cast Nat.zero_le _)]

/-- Rounding leaves a natural number below `2 ^ 23` as it is. -/
theorem roundHalf_natCast (m : Nat) (hm : m < 2 ^ 23) : roundHalf (m : ℚ) = m := by
  unfold roundHalf
  rw [addHalf_natCast m hm, truncate_of_nonneg _ (by positivity), Int.floor_eq_iff]
  constructor
  · push_cast; linarith
  · push_cast; linarith

/-! ## Requests and frequencies that are whole numbers -/

/-- C19: with a whole request `n` of at least 1 and supported frequencies that are
positive whole numbers, all of them below `2 ^ 23`, a successful negotiation has the
factor `d = f / n` exactly, and the stream frequency `f / d` of the success reply is the
request. -/
theorem integer_request_is_met (n : Nat) (hn : 1 ≤ n) (hn2 : n < 2 ^ 23) (S : List ℚ)
    (hS : ∀ g ∈ S, ∃ m : Nat, 1 ≤ m ∧ m < 2 ^ 23 ∧ g = m) (i : Nat) (f : ℚ) (d : Int)
    (h : negotiate (n : ℚ) S = .ok (some (i, f), d)) :
    (d : ℚ) = f / n ∧ streamFreq f d = some (n : ℚ) ∧
    ∀ (s : Session) (sdk : Sdk) (pre : List Effect),
      sdk.set_gaze_output_frequency f = TOBII_RESEARCH_STATUS_OK →
      setSampleStreamFreqWith s sdk n S pre
        = .ok ({ s with downSampFac := d, needSetSampleStreamFreq := false },
            pre ++ [.set_gaze_output_frequency f,
                    .send (.obj [ ("action", .str "setSampleFreq"), ("freq", .num n),
                                  ("baseFreq", .num f), ("status", .bool true) ])]) := by
  have hinv := negotiateLoop_inv (n : ℚ) S 0 (none, 9999) (some (i, f), d) [] h
    ⟨by simp, by simp⟩
  simp only [List.nil_append] at hinv
  obtain ⟨hmem, hcand, hd⟩ := hinv.2 i f rfl
  obtain ⟨m, hm, hm2, rfl⟩ := hS f hmem
  unfold isCandidate at hcand
  rw [roundHalf_natCast m hm2, roundHalf_natCast n hn2] at hcand
  obtain ⟨k, hk⟩ := Int.dvd_of_tmod_eq_zero hcand
  have hn0 : (n : ℚ) ≠ 0 := by positivity
  have hkpos : 1 ≤ k := by
    by_contra hcon
    have hk0 : k ≤ 0 := by omega
    have : (n : Int) * k ≤ 0 := Int.mul_nonpos_of_nonneg_of_nonpos (by omega) hk0
    omega
  obtain ⟨k2, rfl⟩ : ∃ k2 : Nat, k = k2 := ⟨k.toNat, by omega⟩
  have hmk : m = n * k2 := by exact_mod_cast hk
  have hk1 : 1 ≤ k2 := by exact_mod_cast hkpos
  have hkm : k2 ≤ m := by
    rw [hmk]
    exact Nat.le_mul_of_pos_left k2 (by omega)
  have hk23 : k2 < 2 ^ 23 := lt_of_le_of_lt hkm hm2
  have hq : (m : ℚ) / n = (k2 : ℚ) := by
    have : (m : ℚ) = (n : ℚ) * k2 := by exact_mod_cast hk
    rw [this]
    field_simp
  have hdk : d = (k2 : Int) := by
    have hd2 : d = roundHalf (floatDiv (m : ℚ) n) := hd
    rw [hd2, floatDiv, hq, toFloat_natCast k2 (by omega), roundHalf_natCast k2 hk23]
  have hk2 : (k2 : ℚ) ≠ 0 := by positivity
  have hsf : streamFreq (m : ℚ) d = some (n : ℚ) := by
    unfold streamFreq
    have hd0 : d ≠ 0 := by omega
    rw [if_neg hd0, hdk]
    congr 1
    have hc : ((k2 : Int) : ℚ) = (k2 : ℚ) := by push_cast; rfl
    have hqn : (m : ℚ) / k2 = (n : ℚ) := by
      have : (m : ℚ) = (n : ℚ) * k2 := by exact_mod_cast hk
      rw [this]
      field_simp
    rw [hc, toFloat_natCast k2 (by omega), floatDiv, hqn, toFloat_natCast n (by omega)]
  refine ⟨by rw [hdk, hq]; push_cast; rfl, hsf, ?_⟩
  intro s sdk pre hok
  simp [setSampleStreamFreqWith, h, hok, hsf, Json.ofFloat]

/-- C19, on the supported frequencies 60, 120, 200 and the request 30. -/
theorem integer_request_is_met_witness :
    (1 : Nat) ≤ 30 ∧ (30 : Nat) < 2 ^ 23 ∧
    (∀ g ∈ ([60, 120, 200] : List ℚ), ∃ m : Nat, 1 ≤ m ∧ m < 2 ^ 23 ∧ g = m) ∧
    negotiate ((30 : Nat) : ℚ) [60, 120, 200] = .ok (some (0, 60), 2) ∧
    (((2 : Int) : ℚ) = 60 / ((30 : Nat) : ℚ) ∧ streamFreq 60 2 = some ((30 : Nat) : ℚ) ∧
    ∀ (s : Session) (sdk : Sdk) (pre : List Effect),
      sdk.set_gaze_output_frequency 60 = TOBII_RESEARCH_STATUS_OK →
      setSampleStreamFreqWith s sdk ((30 : Nat) : ℚ) [60, 120, 200] pre
        = .ok ({ s with downSampFac := 2, needSetSampleStreamFreq := false },
            pre ++ [.set_gaze_output_frequency 60,
                    .send (.obj [ ("action", .str "setSampleFreq"),
                                  ("freq", .num ((30 : Nat) : ℚ)),
                                  ("baseFreq", .num 60), ("status", .bool true) ])])) :=
  have hS : ∀ g ∈ ([60, 120, 200] : List ℚ), ∃ m : Nat, 1 ≤ m ∧ m < 2 ^ 23 ∧ g = m := by
    intro g hg
    simp only [List.mem_cons, List.mem_singleton, List.not_mem_nil, or_false] at hg
    rcases hg with rfl | rfl | rfl
    · exact ⟨60, by decide, by norm_num, by norm_num⟩
    · exact ⟨120, by decide, by norm_num, by norm_num⟩
    · exact ⟨200, by decide, by norm_num, by norm_num⟩
  have hneg : negotiate ((30 : Nat) : ℚ) [60, 120, 200] = .ok (some (0, 60), 2) := by decide!
  ⟨by decide, by norm_num, hS, hneg,
    integer_request_is_met 30 (by decide) (by norm_num) [60, 120, 200] hS 0 60 2 hneg⟩

/-- C19 fails above `2 ^ 23`: the request 8388609 and the supported frequency 16777220 are
binary32 values and whole numbers; the request plus `.5f` rounds to 8388610, which
divides 16777220, so the negotiation succeeds with the factor 2, which is not
16777220 / 8388609, and the reply reports the stream frequency 8388610, not the
request. -/
theorem integer_request_above_two_pow_23 :
    toFloat 8388609 = 8388609 ∧ toFloat 16777220 = 16777220 ∧
    (Json.num 8388609).getFloat = .ok 8388609 ∧
    roundHalf 8388609 = 8388610 ∧
    negotiate 8388609 [16777220] = .ok (some (0, 16777220), 2) ∧
    ((2 : Int) : ℚ) ≠ 16777220 / 8388609 ∧
    streamFreq 16777220 2 = some 8388610 ∧
    onMessage (Session.init 0) (exampleSdk [16777220])
        (freqMsg "setSampleStreamFreq" 8388609)
      = .ok ({ Session.init 2 with needSetSampleStreamFreq := false },
          [.get_all_gaze_output_frequencies, .set_gaze_output_frequency 16777220,
           .send (.obj [ ("action", .str "setSampleFreq"), ("freq", .num 8388610),
                         ("baseFreq", .num 16777220), ("status", .bool true) ])]) := by
  have h : negotiate 8388609 [16777220] = .ok (some (0, 16777220), 2) := by decide!
  have hg : (Json.num 8388609).getFloat = .ok 8388609 := by decide!
  have hsf : streamFreq 16777220 2 = some 8388610 := by decide!
  refine ⟨by decide!, by decide!, hg, by decide!, h, by norm_num, hsf, ?_⟩
  simp [onMessage, freqMsg, Json.is_null, Json.count, Json.atKey, Json.getString, List.lookup,
    actionTypeMap, dispatch, handleSetSampleStreamFreq, hg, Session.init, exampleSdk,
    TOBII_RESEARCH_STATUS_OK, setSampleStreamFreqWith, h, hsf, Json.ofFloat]

/-! ## Evaluations -/

/-- The negotiation at inputs where the binary32 rounding decides the outcome.  The
request 2.6666667 on the frequency 60 gets the factor 23, since the `float` quotient is
22.5 and its sum with `.5f` is 23; with the frequency 57.4 after it, the second position
wins with the factor 22.  The request 0.49999997, the largest value below 0.5, rounds to
1 and succeeds with the factor 120.  The request 1.4 on 2 and 1 keeps the frequency 2.
The quotients of 60 by -29 and by 23 are replied as the binary32 values nearest to them,
and 16777220 is a candidate for the request 8388609, whose sum with `.5f` is 8388610. -/
theorem negotiate_binary32_evaluations :
    floatDiv 60 (toFloat (26666667 / 10000000)) = 45 / 2 ∧
    negotiate (toFloat (26666667 / 10000000)) [60] = .ok (some (0, 60), 23) ∧
    negotiate (toFloat (26666667 / 10000000)) [60, toFloat (574 / 10)]
      = .ok (some (1, toFloat (574 / 10)), 22) ∧
    toFloat (49999997 / 100000000) = 1 / 2 - 1 / 2 ^ 25 ∧
    addHalf (1 / 2 - 1 / 2 ^ 25) = 1 ∧
    negotiate (1 / 2 - 1 / 2 ^ 25) [60] = .ok (some (0, 60), 120) ∧
    negotiate (toFloat (14 / 10)) [2, 1] = .ok (some (0, 2), 1) ∧
    streamFreq 60 (-29) = some (-4338935 / 2097152) ∧
    roundHalf (floatDiv 60 (toFloat (26666667 / 10000000))) = 23 ∧
    streamFreq 60 23 = some (10941663 / 4194304) ∧
    isCandidate 8388609 16777220 := by
  refine ⟨by decide!, by decide!, by decide!, by decide!, by decide!, by decide!, by decide!,
    by decide!, by decide!, by decide!, by decide!⟩


/-- C16: with the request -31 and the supported frequencies 60 and 120 the negotiation
chooses 120 although 60 is a candidate; with the request 1.4 and the supported
frequencies 2 and 1 it chooses 2 although 1 is a candidate. -/
theorem negotiate_not_lowest_frequency :
    negotiate (-31) [60, 120] = .ok (some (1, 120), -3) ∧ isCandidate (-31) 60 ∧
    roundHalf (60 / (-31)) = -1 ∧ (60 : ℚ) < 120 ∧
    negotiate (14 / 10) [2, 1] = .ok (some (0, 2), 1) ∧ isCandidate (14 / 10) 1 ∧
    roundHalf (1 / (14 / 10)) = 1 ∧ (1 : ℚ) < 2 := by
  refine ⟨by decide!, by decide!, by decide!, by norm_num, by decide!, by decide!, by decide!,
    by norm_num⟩

/-- C18: after a successful `setSampleStreamFreq` has stored the factor 2, a
`setSampleStreamFreq` that finds no match leaves the factor 9999 behind, and one for
which the device refuses the base frequency leaves the factor 3 behind;
`needSetSampleStreamFreq` stays cleared in both runs. -/
theorem failed_setSampleStreamFreq_overwrites_factor :
    runMessages (Session.init 0) [(exampleSdk [60, 120], freqMsg "setSampleStreamFreq" 30)]
      = .ok ({ Session.init 2 with needSetSampleStreamFreq := false },
          [[.get_all_gaze_output_frequencies, .set_gaze_output_frequency 60,
            .send (.obj [ ("action", .str "setSampleFreq"), ("freq", .num 30),
                          ("baseFreq", .num 60), ("status", .bool true) ])]]) ∧
    runMessages (Session.init 0)
        [(exampleSdk [60, 120], freqMsg "setSampleStreamFreq" 30),
         (exampleSdk [60, 120], freqMsg "setSampleStreamFreq" 7)]
      = .ok ({ Session.init 9999 with needSetSampleStreamFreq := false },
          [[.get_all_gaze_output_frequencies, .set_gaze_output_frequency 60,
            .send (.obj [ ("action", .str "setSampleFreq"), ("freq", .num 30),
                          ("baseFreq", .num 60), ("status", .bool true) ])],
           [.get_all_gaze_output_frequencies, .send (noMatchReply none)]]) ∧
    runMessages (Session.init 0)
        [(exampleSdk [60, 120], freqMsg "setSampleStreamFreq" 30),
         (refusingSdk [60, 120], freqMsg "setSampleStreamFreq" 20)]
      = .ok ({ Session.init 3 with needSetSampleStreamFreq := false },
          [[.get_all_gaze_output_frequencies, .set_gaze_output_frequency 60,
            .send (.obj [ ("action", .str "setSampleFreq"), ("freq", .num 30),
                          ("baseFreq", .num 60), ("status", .bool true) ])],
           [.get_all_gaze_output_frequencies, .set_gaze_output_frequency 60,
            sendTobiiErrorAsJson (refusingSdk [60, 120]) 5
              "Problem setting sampling frequency"]]) := by
  have h30 : negotiate 30 [60, 120] = .ok (some (0, 60), 2) := by decide!
  have h7 : negotiate 7 [60, 120] = .ok (none, 9999) := by decide!
  have h20 : negotiate 20 [60, 120] = .ok (some (0, 60), 3) := by decide!
  have g30 : (Json.num 30).getFloat = .ok 30 := by decide!
  have g7 : (Json.num 7).getFloat = .ok 7 := by decide!
  have g20 : (Json.num 20).getFloat = .ok 20 := by decide!
  have hsf : streamFreq 60 2 = some 30 := by decide!
  refine ⟨?_, ?_, ?_⟩
  · simp [runMessages, onMessage, freqMsg, Json.is_null, Json.count, Json.atKey,
      Json.getString, List.lookup, actionTypeMap, dispatch, handleSetSampleStreamFreq,
      g30, Session.init, exampleSdk, TOBII_RESEARCH_STATUS_OK,
      setSampleStreamFreqWith, h30, hsf, Json.ofFloat]
  · simp [runMessages, onMessage, freqMsg, Json.is_null, Json.count, Json.atKey,
      Json.getString, List.lookup, actionTypeMap, dispatch, handleSetSampleStreamFreq,
      g30, g7, Session.init, exampleSdk, TOBII_RESEARCH_STATUS_OK,
      setSampleStreamFreqWith, h30, h7, hsf, Json.ofFloat]
  · simp [runMessages, onMessage, freqMsg, Json.is_null, Json.count, Json.atKey,
      Json.getString, List.lookup, actionTypeMap, dispatch, handleSetSampleStreamFreq,
      g30, g20, Session.init, exampleSdk, refusingSdk, TOBII_RESEARCH_STATUS_OK,
      setSampleStreamFreqWith, h30, h20, hsf, Json.ofFloat]

/-- C20: the precondition error of `startSampleStream` names the actions
`setSampleStreamFreq` and `setBaseSampleFreq`; the first is a key of `actionTypeMap`, the
second is not (the key is `SetBaseSampleFreq`), and a message with the action
`setBaseSampleFreq` gets the reply `Unrecognized action`. -/
theorem setBaseSampleFreq_is_unrecognized :
    startSampleStreamError
      = .obj [ ("error", .str "startSampleStream"),
               ("reason", .str "You have to set the stream sample rate first using action setSampleStreamFreq. NB: you also have to do this after calling setBaseSampleFreq.") ] ∧
    actionTypeMap.length = 11 ∧
    actionTypeMap.lookup "setSampleStreamFreq" = some .SetSampleStreamFreq ∧
    actionTypeMap.lookup "SetBaseSampleFreq" = some .SetBaseSampleFreq ∧
    actionTypeMap.lookup "setBaseSampleFreq" = none ∧
    onMessage (Session.init 0) (exampleSdk [60, 120]) (freqMsg "setBaseSampleFreq" 60)
      = .ok (Session.init 0,
          [.send (.obj [ ("error", .str "Unrecognized action"),
                         ("action", .str "setBaseSampleFreq") ])]) := by
  refine ⟨rfl, rfl, rfl, rfl, rfl, ?_⟩
  simp [onMessage, freqMsg, Json.is_null, Json.count, Json.atKey, Json.getString,
    List.lookup, actionTypeMap]

/-! ## A fixed base frequency -/

/-- The case `Action::Connect` changes at most the device handle. -/
theorem handleConnect_frame (s : Session) (sdk : Sdk) (s1 : Session) (out : List Effect)
    (h : handleConnect s sdk = .ok (s1, out)) :
    ∃ t, s1 = { s with eyeTracker := t } := by
  unfold handleConnect at h
  cases he : s.eyeTracker with
  | some t =>
    simp only [he] at h
    refine ⟨some t, ?_⟩
    repeat' split at h
    all_goals first
      | (cases h; done)
      | (cases h; rw [← he])
  | none =>
    simp only [he] at h
    by_cases hf : sdk.find_all_eyetrackers.1 ≠ TOBII_RESEARCH_STATUS_OK
    · simp only [if_pos hf] at h
      cases h
      exact ⟨none, by rw [← he]⟩
    · simp only [if_neg hf] at h
      cases ht : sdk.find_all_eyetrackers.2 with
      | nil => simp only [ht] at h; cases h
      | cons t ts =>
        simp only [ht] at h
        refine ⟨some t, ?_⟩
        repeat' split at h
        all_goals first
          | (cases h; done)
          | (cases h; rfl)

/-- The negotiation step leaves the base frequency alone. -/
theorem setSampleStreamFreqWith_baseFreq (s : Session) (sdk : Sdk) (freq : ℚ) (fs : List ℚ)
    (pre : List Effect) (s1 : Session) (out : List Effect)
    (h : setSampleStreamFreqWith s sdk freq fs pre = .ok (s1, out)) :
    s1.baseSampleFreq = s.baseSampleFreq := by
  unfold setSampleStreamFreqWith at h
  split at h
  · cases h
  · cases h; rfl
  · simp only at h
    split at h
    · cases h; rfl
    · cases h; rfl

/-- Only a `SetBaseSampleFreq` that replies with success changes the base frequency. -/
theorem dispatch_baseFreq (s : Session) (sdk : Sdk) (j : Json) (act : Action) (s1 : Session)
    (out : List Effect) (h : dispatch s sdk j act = .ok (s1, out)) :
    s1.baseSampleFreq = s.baseSampleFreq ∨
      (act = .SetBaseSampleFreq ∧ out.any isSuccessReply = true) := by
  cases act with
  | Connect =>
    simp only [dispatch] at h
    obtain ⟨t, rfl⟩ := handleConnect_frame s sdk s1 out h
    exact Or.inl rfl
  | SetSampleStreamFreq =>
    simp only [dispatch, handleSetSampleStreamFreq] at h
    left
    split at h
    · cases h; rfl
    · split at h
      · cases h
      · split at h
        · cases h
        · split at h
          · rename_i b hb
            rw [setSampleStreamFreqWith_baseFreq s sdk _ _ _ s1 out h]
          · split at h
            · cases h; rfl
            · exact setSampleStreamFreqWith_baseFreq s sdk _ _ _ s1 out h
  | StartSampleStream =>
    simp only [dispatch, handleStartSampleStream] at h
    left
    repeat' split at h
    all_goals (cases h; rfl)
  | StopSampleStream =>
    simp only [dispatch, handleStopSampleStream] at h
    left
    repeat' split at h
    all_goals (cases h; rfl)
  | SetBaseSampleFreq =>
    simp only [dispatch, handleSetBaseSampleFreq] at h
    split at h
    · cases h; exact Or.inl rfl
    · split at h
      · cases h
      · split at h
        · cases h
        · split at h
          · cases h; exact Or.inl rfl
          · cases h
            exact Or.inr ⟨rfl, by simp [isSuccessReply, List.lookup]⟩
  | StartSampleBuffer =>
    simp only [dispatch, handleStartSampleBuffer] at h
    left
    repeat' split at h
    all_goals (cases h; rfl)
  | ClearSampleBuffer =>
    simp only [dispatch, handleClearSampleBuffer] at h
    cases h; exact Or.inl rfl
  | PeekSamples =>
    simp only [dispatch, handlePeekSamples] at h
    left
    repeat' split at h
    all_goals first
      | (cases h; done)
      | (cases h; rfl)
  | StopSampleBuffer =>
    simp only [dispatch, handleStopSampleBuffer] at h
    left
    repeat' split at h
    all_goals (cases h; rfl)
  | SaveData =>
    simp only [dispatch, handleSaveData] at h
    cases h; exact Or.inl rfl
  | StoreMessage =>
    simp only [dispatch, handleStoreMessage] at h
    cases h; exact Or.inl rfl

/-- Only a `SetBaseSampleFreq` message that is answered with success changes the base
frequency. -/
theorem onMessage_baseFreq (s : Session) (sdk : Sdk) (msg : Option Json) (s1 : Session)
    (out : List Effect) (h : onMessage s sdk msg = .ok (s1, out)) :
    s1.baseSampleFreq = s.baseSampleFreq ∨
      (actionOf msg = some .SetBaseSampleFreq ∧ out.any isSuccessReply = true) := by
  rcases onMessage_cases s sdk msg with ⟨hnone, hcase⟩ | ⟨act, j, rfl, hact, hd⟩
  · rcases hcase with ⟨e, he⟩ | ⟨reply, hr, _⟩
    · rw [he] at h; cases h
    · rw [hr] at h; cases h; exact Or.inl rfl
  · rw [hd] at h
    rw [hact]
    simpa using dispatch_baseFreq s sdk j act s1 out h

/-- A run of messages without a successful `SetBaseSampleFreq` keeps the base frequency. -/
theorem runMessages_baseFreq :
    ∀ (mid : List (Sdk × Option Json)) (s1 s2 : Session) (outs : List (List Effect)),
      runMessages s1 mid = .ok (s2, outs) →
      (∀ st ∈ (mid.map Prod.snd).zip outs,
        ¬ (actionOf st.1 = some Action.SetBaseSampleFreq ∧ st.2.any isSuccessReply = true)) →
      s2.baseSampleFreq = s1.baseSampleFreq := by
  intro mid
  induction mid with
  | nil =>
    intro s1 s2 outs h _
    simp only [runMessages] at h
    cases h
    rfl
  | cons p rest ih =>
    intro s1 s2 outs h hno
    obtain ⟨sdk, msg⟩ := p
    simp only [runMessages] at h
    split at h
    · cases h
    · rename_i s3 out hstep
      split at h
      · cases h
      · rename_i s4 outs2 hrest
        cases h
        have hrec := ih s3 s2 outs2 hrest (by
          intro st hst
          exact hno st (by simp [hst]))
        rw [hrec]
        rcases onMessage_baseFreq s1 sdk msg s3 out hstep with hsame | hset
        · exact hsame
        · exact absurd hset (hno (msg, out) (by simp))

/-- The negotiation over a single frequency `b`, when it returns: `b` is chosen when it is
a candidate with a factor below 9999, and nothing is chosen otherwise. -/
theorem negotiate_single (r b : ℚ) (res : Option (Nat × ℚ) × Int)
    (h : negotiate r [b] = .ok res) :
    res = (none, 9999) ∨ (isCandidate r b ∧ res = (some (0, b), roundHalf (floatDiv b r))) := by
  obtain ⟨acc1, hstep, hrest⟩ := negotiateLoop_cons r 0 b [] (none, 9999) res h
  simp only [negotiateLoop] at hrest
  cases hrest
  rcases hstep with ⟨_, rfl⟩ | ⟨hc, _, rfl⟩ | ⟨_, _, rfl⟩
  · exact Or.inl rfl
  · exact Or.inr ⟨hc, rfl⟩
  · exact Or.inl rfl

/-- The negotiation over a single frequency returns when the loop body is defined on it. -/
theorem negotiate_single_returns (r b : ℚ) (hdef : candidacyDefined r b) :
    ∃ res, negotiate r [b] = .ok res := by
  obtain ⟨a, c, m, ha, hc, hm, ht⟩ := hdef
  by_cases hm0 : m = 0
  · obtain ⟨t, ht2⟩ := ht hm0
    by_cases hlt : t < 9999
    · exact ⟨(some (0, b), t), by
        simp only [negotiate, negotiateLoop, ha, hc, hm, if_pos hm0, ht2, if_pos hlt]⟩
    · exact ⟨(none, 9999), by
        simp only [negotiate, negotiateLoop, ha, hc, hm, if_pos hm0, ht2, if_neg hlt]⟩
  · exact ⟨(none, 9999), by
      simp only [negotiate, negotiateLoop, ha, hc, hm, if_neg hm0]⟩

/-- C14: after a `SetBaseSampleFreq` with the frequency `b` has succeeded, and as long as
no other one succeeds, a `setSampleStreamFreq` with a numeric `freq` negotiates over the
single frequency `b`.  When it returns it has not asked the device for its frequencies,
has set no frequency other than `b`, and has either replied `invalidParam` with
`baseFreq` `b`, or, `b` being a candidate, replied with the device error when the
device refused `b` and with success and `baseFreq` `b` when it accepted.  Where the loop
body is defined on `b` it returns, and if `b` is no candidate the reply is
`invalidParam` with `baseFreq` `b`. -/
theorem setSampleStreamFreq_after_base (s0 : Session) (sdk0 : Sdk) (j0 v0 : Json) (b : ℚ)
    (s1 : Session) (out0 : List Effect)
    (ha0 : actionOf (some j0) = some .SetBaseSampleFreq)
    (hv0 : j0.atKey "freq" = .ok v0) (hb : v0.getFloat = .ok b)
    (h0 : onMessage s0 sdk0 (some j0) = .ok (s1, out0))
    (hs0 : out0.any isSuccessReply = true)
    (mid : List (Sdk × Option Json)) (s2 : Session) (outs : List (List Effect))
    (hrun : runMessages s1 mid = .ok (s2, outs))
    (hmid : ∀ st ∈ (mid.map Prod.snd).zip outs,
      ¬ (actionOf st.1 = some Action.SetBaseSampleFreq ∧ st.2.any isSuccessReply = true))
    (sdk : Sdk) (j v : Json) (r : ℚ)
    (ha : actionOf (some j) = some .SetSampleStreamFreq)
    (hv : j.atKey "freq" = .ok v) (hr : v.getFloat = .ok r) :
    onMessage s2 sdk (some j) = setSampleStreamFreqWith s2 sdk r [b] [] ∧
    (∀ s3 out, onMessage s2 sdk (some j) = .ok (s3, out) →
      out.any isFrequencyQuery = false ∧
      (∀ f, Effect.set_gaze_output_frequency f ∈ out → f = b) ∧
      (out = [.send (noMatchReply (some b))] ∨
       (isCandidate r b ∧ sdk.set_gaze_output_frequency b ≠ TOBII_RESEARCH_STATUS_OK ∧
         out = [.set_gaze_output_frequency b,
                sendTobiiErrorAsJson sdk (sdk.set_gaze_output_frequency b)
                  "Problem setting sampling frequency"]) ∨
       (isCandidate r b ∧ sdk.set_gaze_output_frequency b = TOBII_RESEARCH_STATUS_OK ∧
         out = [.set_gaze_output_frequency b,
                .send (.obj [ ("action", .str "setSampleFreq"),
                              ("freq", Json.ofFloat (streamFreq b (roundHalf (floatDiv b r)))),
                              ("baseFreq", .num b), ("status", .bool true) ])]))) ∧
    (candidacyDefined r b → ∃ s3 out, onMessage s2 sdk (some j) = .ok (s3, out)) ∧
    (candidacyDefined r b → ¬ isCandidate r b →
      onMessage s2 sdk (some j)
        = .ok ({ s2 with downSampFac := 9999 }, [.send (noMatchReply (some b))])) := by
  -- the base frequency of the session is `b`
  have hs1 : s1.baseSampleFreq = some b := by
    rw [onMessage_dispatch s0 sdk0 j0 _ ha0] at h0
    simp only [dispatch, handleSetBaseSampleFreq, if_neg (count_of_atKey j0 "freq" v0 hv0),
      hv0, hb] at h0
    split at h0
    · cases h0
      simp [sendTobiiErrorAsJson, isSuccessReply, List.lookup] at hs0
    · cases h0
      rfl
  have hs2 : s2.baseSampleFreq = some b := by
    rw [runMessages_baseFreq mid s1 s2 outs hrun hmid, hs1]
  have heq : onMessage s2 sdk (some j) = setSampleStreamFreqWith s2 sdk r [b] [] := by
    rw [onMessage_dispatch s2 sdk j _ ha]
    simp only [dispatch, handleSetSampleStreamFreq, if_neg (count_of_atKey j "freq" v hv),
      hv, hr, hs2]
  refine ⟨heq, ?_, ?_, ?_⟩
  · intro s3 out hout
    rw [heq] at hout
    unfold setSampleStreamFreqWith at hout
    split at hout
    · cases hout
    · cases hout
      simp [hs2, isFrequencyQuery]
    · rename_i i best d hneg
      rcases negotiate_single r b _ hneg with hnone | ⟨hc, hsome⟩
      · cases hnone
      · simp only [Prod.mk.injEq, Option.some.injEq] at hsome
        obtain ⟨⟨_, rfl⟩, rfl⟩ := hsome
        simp only at hout
        split at hout
        · rename_i hfail
          cases hout
          refine ⟨by simp [isFrequencyQuery, sendTobiiErrorAsJson], ?_,
            Or.inr (Or.inl ⟨hc, hfail, by simp⟩)⟩
          intro f hf
          simp [sendTobiiErrorAsJson] at hf
          exact hf
        · rename_i hok
          cases hout
          refine ⟨by simp [isFrequencyQuery], ?_,
            Or.inr (Or.inr ⟨hc, not_not.1 hok, by simp⟩)⟩
          intro f hf
          simp at hf
          exact hf
  · intro hdef
    obtain ⟨res, hres⟩ := negotiate_single_returns r b hdef
    rw [heq]
    unfold setSampleStreamFreqWith
    rw [hres]
    obtain ⟨best, d⟩ := res
    cases best with
    | none => exact ⟨_, _, rfl⟩
    | some p =>
      simp only
      split
      · exact ⟨_, _, rfl⟩
      · exact ⟨_, _, rfl⟩
  · intro hdef hnc
    obtain ⟨res, hres⟩ := negotiate_single_returns r b hdef
    rcases negotiate_single r b res hres with rfl | ⟨hc, _⟩
    · rw [heq]
      unfold setSampleStreamFreqWith
      rw [hres]
      simp [hs2]
    · exact absurd hc hnc

/-- C14, after `SetBaseSampleFreq` with 120 has succeeded: `setSampleStreamFreq` with 60,
for which 120 is a candidate, on a device that refuses to be set, is answered with the
device error, which is neither success nor `invalidParam`; and `setSampleStreamFreq`
with 0 does not return. -/
theorem setSampleStreamFreq_after_base_device_error :
    isCandidate 60 120 ∧
    runMessages (Session.init 0)
        [(exampleSdk [60, 120], freqMsg "SetBaseSampleFreq" 120),
         (refusingSdk [60, 120], freqMsg "setSampleStreamFreq" 60)]
      = .ok ({ Session.init 2 with baseSampleFreq := some 120 },
          [[.set_gaze_output_frequency 120, .unsubscribe_from_gaze_data,
            .send (.obj [ ("action", .str "setSampleFreq"), ("freq", .num 120),
                          ("status", .bool true) ])],
           [.set_gaze_output_frequency 120,
            sendTobiiErrorAsJson (refusingSdk [60, 120]) 5
              "Problem setting sampling frequency"]]) ∧
    runMessages (Session.init 0)
        [(exampleSdk [60, 120], freqMsg "SetBaseSampleFreq" 120),
         (exampleSdk [60, 120], freqMsg "setSampleStreamFreq" 0)]
      = .error .divByZero := by
  have h60 : negotiate 60 [120] = .ok (some (0, 120), 2) := by decide!
  have h0 : negotiate 0 [120] = .error .divByZero := by decide!
  have g120 : (Json.num 120).getFloat = .ok 120 := by decide!
  have g60 : (Json.num 60).getFloat = .ok 60 := by decide!
  have g0 : (Json.num 0).getFloat = .ok 0 := by decide!
  refine ⟨by decide!, ?_, ?_⟩
  · simp [runMessages, onMessage, freqMsg, Json.is_null, Json.count, Json.atKey,
      Json.getString, List.lookup, actionTypeMap, dispatch, handleSetSampleStreamFreq,
      handleSetBaseSampleFreq, g120, g60, Session.init, exampleSdk, refusingSdk,
      TOBII_RESEARCH_STATUS_OK, setSampleStreamFreqWith, h60]
  · simp [runMessages, onMessage, freqMsg, Json.is_null, Json.count, Json.atKey,
      Json.getString, List.lookup, actionTypeMap, dispatch, handleSetSampleStreamFreq,
      handleSetBaseSampleFreq, g120, g0, Session.init, exampleSdk,
      TOBII_RESEARCH_STATUS_OK, setSampleStreamFreqWith, h0]

/-- C14, after `SetBaseSampleFreq` with 120 has succeeded on the initial session:
`setSampleStreamFreq` with 50, for which 120 is no candidate, is answered with
`invalidParam` and `baseFreq` 120. -/
theorem setSampleStreamFreq_after_base_witness :
    onMessage (Session.init 0) (exampleSdk [60, 120]) (freqMsg "SetBaseSampleFreq" 120)
      = .ok ({ Session.init 0 with baseSampleFreq := some 120 },
          [.set_gaze_output_frequency 120, .unsubscribe_from_gaze_data,
           .send (.obj [ ("action", .str "setSampleFreq"), ("freq", .num 120),
                         ("status", .bool true) ])]) ∧
    candidacyDefined 50 120 ∧ ¬ isCandidate 50 120 ∧
    onMessage { Session.init 0 with baseSampleFreq := some 120 } (exampleSdk [60, 120])
        (freqMsg "setSampleStreamFreq" 50)
      = .ok ({ Session.init 9999 with baseSampleFreq := some 120 },
          [.send (noMatchReply (some 120))]) :=
  have h0 : onMessage (Session.init 0) (exampleSdk [60, 120])
        (freqMsg "SetBaseSampleFreq" 120)
      = .ok ({ Session.init 0 with baseSampleFreq := some 120 },
          [.set_gaze_output_frequency 120, .unsubscribe_from_gaze_data,
           .send (.obj [ ("action", .str "setSampleFreq"), ("freq", .num 120),
                         ("status", .bool true) ])]) := by
    have g120 : (Json.num 120).getFloat = .ok 120 := by decide!
    simp [onMessage, freqMsg, Json.is_null, Json.count, Json.atKey, Json.getString,
      List.lookup, actionTypeMap, dispatch, handleSetBaseSampleFreq, g120,
      Session.init, exampleSdk, TOBII_RESEARCH_STATUS_OK]
  have hdef : candidacyDefined 50 120 :=
    ⟨120, 50, 20, by decide!, by decide!, by decide!, fun h => absurd h (by decide)⟩
  have hnc : ¬ isCandidate 50 120 := by decide!
  ⟨h0, hdef, hnc,
    (setSampleStreamFreq_after_base (Session.init 0) (exampleSdk [60, 120])
      (.obj [ ("action", .str "SetBaseSampleFreq"), ("freq", .num 120) ]) (.num 120) 120
      { Session.init 0 with baseSampleFreq := some 120 } _ rfl rfl (by decide!) h0 rfl
      [] { Session.init 0 with baseSampleFreq := some 120 } [] rfl (by simp)
      (exampleSdk [60, 120])
      (.obj [ ("action", .str "setSampleStreamFreq"), ("freq", .num 50) ]) (.num 50) 50
      rfl rfl (by decide!)).2.2.2 hdef hnc⟩

end Titta
